import Mathlib

/-!
Verification of the LiteX bit-banged SPI flash driver
(`drivers/mtd/spi-nor/litex-spiflash.c`).

The driver drives a NOR flash over three memory-mapped byte registers:
a control register at offset 0x0 (read-modify-write), a data-input
(MISO) register at offset 0x4, and a one-time enable register at 0x8.
We embed the driver shallowly: the machine state `M` holds the control
register byte, the MISO register, the stream of bits the attached flash
device will present, a jiffies stream (times are modelled in
milliseconds, i.e. `msecs_to_jiffies` is the identity), and the trace of
control-register writes.  The bus semantics lives in `wrReg`: on a
rising clock edge (bit 1 going 0 to 1) with chip-select asserted
(bit 2 = 0), either the device latches the driven MOSI bit (bit 0) when
capture mode is off (bit 3 = 0), or it presents its next output bit in
the MISO register when capture mode is on.  All driver functions are
direct transcriptions of the C source; the busy-wait loop takes explicit
fuel (`none` models its non-terminating spin).
-/

namespace LitexSpiFlash

/-- Event-free machine state for the driver: control register byte,
MISO input register, bits latched by the device on the wire (`sent`),
the device's output-bit stream `dev` with cursor `di`, the jiffies
stream `jif` with cursor `ti`, and the list of values written to the
control register (`trace`). -/
structure M where
  reg : Nat
  misoReg : Nat
  sent : List Nat
  dev : Nat → Nat
  di : Nat
  jif : Nat → Nat
  ti : Nat
  trace : List Nat

/-- `#define SPIFLASH_ENABLE 0x01` -/
def SPIFLASH_ENABLE : Nat := 0x01
/-- `#define CLK_ENABLE 0x02` -/
def CLK_ENABLE : Nat := 0x02
/-- `#define CS_ENABLE 0x04` -/
def CS_ENABLE : Nat := 0x04
/-- `#define MISO_MODE 0x08` -/
def MISO_MODE : Nat := 0x08
/-- `#define WRITE_ENABLE 0x06` -/
def WRITE_ENABLE : Nat := 0x06
/-- `#define READ_STATUS_REGISTER 0x05` -/
def READ_STATUS_REGISTER : Nat := 0x05
/-- `#define WORK_IN_PROGRESS 0x01` -/
def WORK_IN_PROGRESS : Nat := 0x01
/-- `#define READ_FLAG_STATUS_REGISTER 0x70` -/
def READ_FLAG_STATUS_REGISTER : Nat := 0x70
/-- `#define PROGRAM_ERR 0x10` -/
def PROGRAM_ERR : Nat := 0x10
/-- `#define ERASE_BUSY 0x80` -/
def ERASE_BUSY : Nat := 0x80
/-- `#define ERASE_ERR 0x20` -/
def ERASE_ERR : Nat := 0x20
/-- `#define TIMEOUT_ERASE_MS 3000` -/
def TIMEOUT_ERASE_MS : Nat := 3000
/-- `#define TIMEOUT_MS 50` -/
def TIMEOUT_MS : Nat := 50
/-- `#define DUMMY_CYCLES 8` -/
def DUMMY_CYCLES : Nat := 8
/-- `-ETIMEDOUT` is `-110` in the kernel. -/
def ETIMEDOUT : Int := 110
/-- `-EINVAL` is `-22` in the kernel. -/
def EINVAL : Int := 22

/-- Bitwise complement of a byte value, as the C `~x` truncated to `u8`
(all helper call sites pass constants below 256). -/
def compl8 (x : Nat) : Nat := 255 - x % 256

/-- `litex_write8` to the control register, together with the bus/device
reaction: on a rising clock edge (bit 1: 0 then 1) with chip-select
asserted (bit 2 = 0), the device latches the MOSI bit (bit 0) when in
output mode (bit 3 = 0) or presents its next bit in the MISO register
when in capture mode (bit 3 = 1).  Writes off a rising edge, or with the
device deselected, only update the register and the trace. -/
def wrReg (v : Nat) (m : M) : M :=
  if !m.reg.testBit 1 && v.testBit 1 && !v.testBit 2 then
    if v.testBit 3 then
      { m with reg := v, trace := m.trace ++ [v],
               misoReg := m.dev m.di, di := m.di + 1 }
    else
      { m with reg := v, trace := m.trace ++ [v], sent := m.sent ++ [v &&& 1] }
  else
    { m with reg := v, trace := m.trace ++ [v] }

/-- `static void cs(struct spi_nor *nor, u8 new_val)`: read-modify-write
of the control register; OR when `new_val == CS_ENABLE`, AND otherwise. -/
def cs (new_val : Nat) (m : M) : M :=
  wrReg (if new_val = CS_ENABLE then m.reg ||| new_val else m.reg &&& new_val) m

/-- `static void clk(struct spi_nor *nor, u8 new_val)`. -/
def clk (new_val : Nat) (m : M) : M :=
  wrReg (if new_val = CLK_ENABLE then m.reg ||| new_val else m.reg &&& new_val) m

/-- `static u8 miso_read(struct spi_nor *nor)`: reads the MISO register
and masks bit 0. -/
def miso_read (m : M) : Nat := m.misoReg &&& 1

/-- `static void mosi_set(bool mosi, struct spi_nor *nor)`: sets or
clears bit 0 of the control register (`curr | 0x01` / `curr & ~0x01`,
the latter truncated to `u8`, i.e. `&&& 0xFE`). -/
def mosi_set (mosi : Bool) (m : M) : M :=
  wrReg (if mosi then m.reg ||| 0x01 else m.reg &&& 0xFE) m

/-- `static void enable(struct spi_nor *nor, u8 new_val)`: read-modify-
write of the capture-mode bit. -/
def enable (new_val : Nat) (m : M) : M :=
  wrReg (if new_val = MISO_MODE then m.reg ||| new_val else m.reg &&& new_val) m

/-- The clock pulse `clk(nor, ~CLK_ENABLE); clk(nor, CLK_ENABLE)` as
inlined throughout the source (dummy cycles, byte send, byte receive). -/
def pulse (m : M) : M := clk CLK_ENABLE (clk (compl8 CLK_ENABLE) m)

/-- `static void dummy_cycles(struct spi_nor *nor, int n_cycles)`:
`n_cycles` low-then-high clock pulses. -/
def dummy_cycles : Nat → M → M
  | 0, m => m
  | n + 1, m => dummy_cycles n (pulse m)

/-- Loop body of `spi_bitbang_send`: for `i = 7 .. 0`, drive
`c & 0x80` on MOSI, shift `c` left (as `u8`), pulse the clock. -/
def sendLoop : Nat → Nat → M → M
  | 0, _, m => m
  | n + 1, c, m => sendLoop n ((c <<< 1) % 256) (pulse (mosi_set (c &&& 0x80 != 0) m))

/-- `static void spi_bitbang_send(struct spi_nor *nor, const u8 command)`:
sends the byte most-significant bit first over eight clock pulses. -/
def spi_bitbang_send (command : Nat) (m : M) : M :=
  sendLoop 8 (command % 256) m

/-- Loop body of `spi_bitbang_read`: for `i = 7 .. 0`, pulse the clock
and OR the sampled MISO bit into position `i`. -/
def recvLoop : Nat → Nat → M → Nat × M
  | 0, acc, m => (acc, m)
  | n + 1, acc, m =>
      let m1 := pulse m
      recvLoop n (acc ||| (miso_read m1 <<< n)) m1

/-- `static u8 spi_bitbang_read(struct spi_nor *nor)`: receives a byte
most-significant bit first over eight clock pulses. -/
def spi_bitbang_read (m : M) : Nat × M := recvLoop 8 0 m

/-- `static void write_command(struct spi_nor *nor, const u8 command)`:
switch the data line to output mode, run the eight dummy clock pulses,
assert chip-select (active low), then send the opcode byte. -/
def write_command (command : Nat) (m : M) : M :=
  spi_bitbang_send command
    (cs (compl8 CS_ENABLE) (dummy_cycles DUMMY_CYCLES (enable (compl8 MISO_MODE) m)))

/-- Byte `i` of the little-endian in-memory layout of the `u32` address,
i.e. what `((u8 *)&addr32)[i]` reads on the (little-endian) LiteX
targets. -/
def addrByte (addr32 i : Nat) : Nat := (addr32 >>> (8 * i)) &&& 0xFF

/-- `static void write_address(struct spi_nor *nor, const u32 addr32)`:
sends `addr8[2]`, `addr8[1]`, `addr8[0]` of the little-endian byte view
of the address, i.e. the most-significant of the three address bytes
first. -/
def write_address (addr32 : Nat) (m : M) : M :=
  spi_bitbang_send (addrByte addr32 0)
    (spi_bitbang_send (addrByte addr32 1)
      (spi_bitbang_send (addrByte addr32 2) m))

/-- `static void write_data(struct spi_nor *nor, const u8 *data, int len)`:
switch to output mode and send the payload bytes in order. -/
def write_data (data : List Nat) (m : M) : M :=
  data.foldl (fun s b => spi_bitbang_send b s) (enable (compl8 MISO_MODE) m)

/-- Loop body of `read_data`: receive `n` bytes into a buffer. -/
def readLoop : Nat → M → List Nat × M
  | 0, m => ([], m)
  | n + 1, m =>
      let p := spi_bitbang_read m
      let q := readLoop n p.2
      (p.1 :: q.1, q.2)

/-- `static void read_data(struct spi_nor *nor, u8 *buffer, int len)`:
switch to capture mode and receive `len` bytes. -/
def read_data (len : Nat) (m : M) : List Nat × M :=
  readLoop len (enable MISO_MODE m)

/-- `static int spi_flash_nor_read_reg(...)`: opcode transaction followed
by an inbound payload of `len` bytes, then deselect; always returns 0. -/
def spi_flash_nor_read_reg (opcode len : Nat) (m : M) : Int × List Nat × M :=
  let m1 := write_command opcode m
  let p := read_data len m1
  (0, p.1, cs CS_ENABLE p.2)

/-- `static u8 read_status(struct spi_nor *nor, const u8 status_command)`:
one-byte register read. -/
def read_status (status_command : Nat) (m : M) : Nat × M :=
  let r := spi_flash_nor_read_reg status_command 1 m
  (r.2.1.getD 0 0, r.2.2)

/-- Reading `jiffies`: returns the current value of the time stream and
advances the time cursor. -/
def nowObs (m : M) : Nat × M := (m.jif m.ti, { m with ti := m.ti + 1 })

/-- The `while (read_status(nor, reg) & flag)` spin of `busy`, with
explicit fuel; `none` models the loop spinning forever.  The deadline
check `time_after(jiffies, end)` only happens on polls that still see
the flag set. -/
def busyLoop (endT reg flag : Nat) : Nat → M → Option (Int × M)
  | 0, _ => none
  | fuel + 1, m =>
      let p := read_status reg m
      if p.1 &&& flag != 0 then
        let q := nowObs p.2
        if endT < q.1 then some (-ETIMEDOUT, q.2)
        else busyLoop endT reg flag fuel q.2
      else some (0, p.2)

/-- `static int busy(struct spi_nor *nor, int time, u8 reg, u8 flag)`:
computes `end = jiffies + msecs_to_jiffies(time)` once at entry
(time is modelled in milliseconds, `msecs_to_jiffies` as the identity),
then polls the status register until the flag clears (returns 0) or a
poll that still sees the flag finds `jiffies` past `end`
(returns `-ETIMEDOUT`). -/
def busy (time reg flag fuel : Nat) (m : M) : Option (Int × M) :=
  let q := nowObs m
  busyLoop (q.1 + time) reg flag fuel q.2

/-- `static int spi_flash_nor_erase(struct spi_nor *nor, loff_t offs)`:
WRITE-ENABLE transaction, short busy-wait on WORK_IN_PROGRESS, erase
opcode + 3-byte address transaction, long busy-wait on ERASE_BUSY, long
busy-wait on WORK_IN_PROGRESS, then return the raw
`read_status(READ_FLAG_STATUS_REGISTER) & ERASE_ERR` value. -/
def spi_flash_nor_erase (erase_opcode offs f1 f2 f3 : Nat) (m : M) :
    Option (Int × M) :=
  let m1 := cs CS_ENABLE (write_command WRITE_ENABLE m)
  match busy TIMEOUT_MS READ_STATUS_REGISTER WORK_IN_PROGRESS f1 m1 with
  | none => none
  | some (r1, m2) =>
    if r1 != 0 then some (-ETIMEDOUT, m2) else
    let m3 := cs CS_ENABLE (write_address (offs % 2 ^ 32) (write_command erase_opcode m2))
    match busy TIMEOUT_ERASE_MS READ_FLAG_STATUS_REGISTER ERASE_BUSY f2 m3 with
    | none => none
    | some (r2, m4) =>
      if r2 != 0 then some (-ETIMEDOUT, m4) else
      match busy TIMEOUT_ERASE_MS READ_STATUS_REGISTER WORK_IN_PROGRESS f3 m4 with
      | none => none
      | some (r3, m5) =>
        if r3 != 0 then some (-ETIMEDOUT, m5) else
        let p := read_status READ_FLAG_STATUS_REGISTER m5
        some (Int.ofNat (p.1 &&& ERASE_ERR), p.2)

/-- `static ssize_t spi_flash_nor_read(...)`: read opcode, 3-byte
address, inbound payload, deselect; returns `length`. -/
def spi_flash_nor_read (read_opcode from_ length : Nat) (m : M) :
    Int × List Nat × M :=
  let m1 := write_address (from_ % 2 ^ 32) (write_command read_opcode m)
  let p := read_data length m1
  (Int.ofNat length, p.1, cs CS_ENABLE p.2)

/-- `static ssize_t spi_flash_nor_write(...)`: WRITE-ENABLE, short
busy-wait, program opcode + address + payload, short busy-wait, then
`-EINVAL` if the flag-status byte has PROGRAM_ERR set, else `len`. -/
def spi_flash_nor_write (program_opcode to_ : Nat) (buf : List Nat)
    (f1 f2 : Nat) (m : M) : Option (Int × M) :=
  let m1 := cs CS_ENABLE (write_command WRITE_ENABLE m)
  match busy TIMEOUT_MS READ_STATUS_REGISTER WORK_IN_PROGRESS f1 m1 with
  | none => none
  | some (r1, m2) =>
    if r1 != 0 then some (-ETIMEDOUT, m2) else
    let m3 := cs CS_ENABLE
      (write_data buf (write_address (to_ % 2 ^ 32) (write_command program_opcode m2)))
    match busy TIMEOUT_MS READ_STATUS_REGISTER WORK_IN_PROGRESS f2 m3 with
    | none => none
    | some (r2, m4) =>
      if r2 != 0 then some (-ETIMEDOUT, m4) else
      let p := read_status READ_FLAG_STATUS_REGISTER m4
      if p.1 &&& PROGRAM_ERR != 0 then some (-EINVAL, p.2)
      else some (Int.ofNat buf.length, p.2)

/-- `static ssize_t spi_flash_nor_write_reg(...)`: WRITE-ENABLE, short
busy-wait, target opcode + payload, short busy-wait, return 0. -/
def spi_flash_nor_write_reg (opcode : Nat) (buf : List Nat)
    (f1 f2 : Nat) (m : M) : Option (Int × M) :=
  let m1 := cs CS_ENABLE (write_command WRITE_ENABLE m)
  match busy TIMEOUT_MS READ_STATUS_REGISTER WORK_IN_PROGRESS f1 m1 with
  | none => none
  | some (r1, m2) =>
    if r1 != 0 then some (-ETIMEDOUT, m2) else
    let m3 := cs CS_ENABLE (write_data buf (write_command opcode m2))
    match busy TIMEOUT_MS READ_STATUS_REGISTER WORK_IN_PROGRESS f2 m3 with
    | none => none
    | some (r2, m4) =>
      if r2 != 0 then some (-ETIMEDOUT, m4) else some (0, m4)

/-- The byte `c` as it appears on the wire: its eight bits,
most-significant first, as the send loop emits them
(`c & 0x80`, then `c <<= 1` truncated to `u8`). -/
def msbBits : Nat → Nat → List Nat
  | 0, _ => []
  | n + 1, c => ((c >>> 7) &&& 1) :: msbBits n ((c <<< 1) % 256)

/-- Device output stream presenting the bytes `bs` most-significant bit
first, one byte per eight input-mode clock pulses. -/
def devOfBytes (bs : List Nat) : Nat → Nat :=
  fun n => (msbBits 8 (bs.getD (n / 8) 0)).getD (n % 8) 0

/-- The wire image of a byte sequence: each byte (as `u8`) sent
most-significant bit first. -/
def msbList (l : List Nat) : List Nat :=
  (l.map (fun b => msbBits 8 (b % 256))).flatten

/-- Initial machine: control register `r`, device answering with the
bytes `bs`, jiffies taking the successive values `js` (then 0). -/
def mkM (r : Nat) (bs : List Nat) (js : List Nat) : M :=
  { reg := r, misoReg := 0, sent := [], dev := devOfBytes bs, di := 0,
    jif := fun i => js.getD i 0, ti := 0, trace := [] }

/-- Loopback bench intervention: the device replays the bits recorded on
the wire from position `base` on; the bit sampled at the k-th
capture-mode clock pulse equals the bit driven at the k-th output-mode
clock pulse after `base`. -/
def loopback (base : Nat) (m : M) : M :=
  { m with dev := fun k => m.sent.getD (base + k) 0, di := 0 }

/-- Pure mirror of the receive loop over a bit stream. -/
def recvPure : Nat → Nat → (Nat → Nat) → Nat → Nat
  | 0, acc, _, _ => acc
  | n + 1, acc, f, i => recvPure n (acc ||| ((f i &&& 1) <<< n)) f (i + 1)

/-- Number of rising clock edges (bit 1 going 0 to 1) along a list of
control-register writes, starting from register value `p`. -/
def risingCount : Nat → List Nat → Nat
  | _, [] => 0
  | p, v :: vs => (if !p.testBit 1 && v.testBit 1 then 1 else 0) + risingCount v vs

/-- The control-register write trace of `n` dummy clock pulses starting
from register value `r`. -/
def dTrace : Nat → Nat → List Nat
  | 0, _ => []
  | n + 1, r => (r &&& 253) :: ((r &&& 253) ||| 2) :: dTrace n ((r &&& 253) ||| 2)

/-- Result value of an erase call. -/
def eraseRes (eo offs f1 f2 f3 : Nat) (m : M) : Option Int :=
  (spi_flash_nor_erase eo offs f1 f2 f3 m).map Prod.fst

/-- Wire bits driven (and accepted by the selected device) during an
erase call. -/
def eraseSent (eo offs f1 f2 f3 : Nat) (m : M) : Option (List Nat) :=
  (spi_flash_nor_erase eo offs f1 f2 f3 m).map fun p => p.2.sent

/-- Chip-select bit of the final state of an erase call. -/
def eraseFinalCS (eo offs f1 f2 f3 : Nat) (m : M) : Option Bool :=
  (spi_flash_nor_erase eo offs f1 f2 f3 m).map fun p => p.2.reg.testBit 2

/-- Result value of a data-program call. -/
def writeRes (po to_ : Nat) (buf : List Nat) (f1 f2 : Nat) (m : M) : Option Int :=
  (spi_flash_nor_write po to_ buf f1 f2 m).map Prod.fst

/-- Wire bits driven during a data-program call. -/
def writeSent (po to_ : Nat) (buf : List Nat) (f1 f2 : Nat) (m : M) : Option (List Nat) :=
  (spi_flash_nor_write po to_ buf f1 f2 m).map fun p => p.2.sent

/-- Chip-select bit of the final state of a data-program call. -/
def writeFinalCS (po to_ : Nat) (buf : List Nat) (f1 f2 : Nat) (m : M) : Option Bool :=
  (spi_flash_nor_write po to_ buf f1 f2 m).map fun p => p.2.reg.testBit 2

/-- Chip-select bit of the final state of a register-write call. -/
def writeRegFinalCS (opcode : Nat) (buf : List Nat) (f1 f2 : Nat) (m : M) : Option Bool :=
  (spi_flash_nor_write_reg opcode buf f1 f2 m).map fun p => p.2.reg.testBit 2

/-- Result value of a busy-wait call. -/
def busyRes (time reg flag fuel : Nat) (m : M) : Option Int :=
  (busy time reg flag fuel m).map Prod.fst

/-- Wire bits driven during a busy-wait call (the polled status
opcodes). -/
def busySent (time reg flag fuel : Nat) (m : M) : Option (List Nat) :=
  (busy time reg flag fuel m).map fun p => p.2.sent

/-! ### Basic facts about single register writes -/

lemma wrReg_reg (v : Nat) (m : M) : (wrReg v m).reg = v := by
  unfold wrReg; split_ifs <;> rfl

lemma wrReg_ti (v : Nat) (m : M) : (wrReg v m).ti = m.ti := by
  unfold wrReg; split_ifs <;> rfl

lemma wrReg_jif (v : Nat) (m : M) : (wrReg v m).jif = m.jif := by
  unfold wrReg; split_ifs <;> rfl

lemma wrReg_dev (v : Nat) (m : M) : (wrReg v m).dev = m.dev := by
  unfold wrReg; split_ifs <;> rfl

lemma wrReg_trace (v : Nat) (m : M) : (wrReg v m).trace = m.trace ++ [v] := by
  unfold wrReg; split_ifs <;> rfl

lemma wrReg_plain (v : Nat) (m : M)
    (h : (!m.reg.testBit 1 && v.testBit 1 && !v.testBit 2) = false) :
    wrReg v m = { m with reg := v, trace := m.trace ++ [v] } := by
  simp [wrReg, h]

lemma wrReg_no_edge (v : Nat) (m : M)
    (h : (!m.reg.testBit 1 && v.testBit 1) = false) :
    wrReg v m = { m with reg := v, trace := m.trace ++ [v] } := by
  apply wrReg_plain; simp [h]

lemma wrReg_desel (v : Nat) (m : M) (h : v.testBit 2 = true) :
    wrReg v m = { m with reg := v, trace := m.trace ++ [v] } := by
  apply wrReg_plain; simp [h]

lemma wrReg_latch (v : Nat) (m : M) (h1 : m.reg.testBit 1 = false)
    (hv : v.testBit 1 = true) (h2 : v.testBit 2 = false)
    (h3 : v.testBit 3 = false) :
    wrReg v m = { m with reg := v, trace := m.trace ++ [v],
                         sent := m.sent ++ [v &&& 1] } := by
  simp [wrReg, h1, hv, h2, h3]

lemma wrReg_present (v : Nat) (m : M) (h1 : m.reg.testBit 1 = false)
    (hv : v.testBit 1 = true) (h2 : v.testBit 2 = false)
    (h3 : v.testBit 3 = true) :
    wrReg v m = { m with reg := v, trace := m.trace ++ [v],
                         misoReg := m.dev m.di, di := m.di + 1 } := by
  simp [wrReg, h1, hv, h2, h3]

/-! ### The helpers at their actual call-site arguments -/

lemma clk_lo_eq (m : M) : clk (compl8 CLK_ENABLE) m = wrReg (m.reg &&& 253) m := by
  norm_num [clk, compl8, CLK_ENABLE]

lemma clk_hi_eq (m : M) : clk CLK_ENABLE m = wrReg (m.reg ||| 2) m := by
  norm_num [clk, CLK_ENABLE]

lemma cs_hi_eq (m : M) : cs CS_ENABLE m = wrReg (m.reg ||| 4) m := by
  norm_num [cs, CS_ENABLE]

lemma cs_lo_eq (m : M) : cs (compl8 CS_ENABLE) m = wrReg (m.reg &&& 251) m := by
  norm_num [cs, compl8, CS_ENABLE]

lemma enable_hi_eq (m : M) : enable MISO_MODE m = wrReg (m.reg ||| 8) m := by
  norm_num [enable, MISO_MODE]

lemma enable_lo_eq (m : M) : enable (compl8 MISO_MODE) m = wrReg (m.reg &&& 247) m := by
  norm_num [enable, compl8, MISO_MODE]

lemma mosi_true_eq (m : M) : mosi_set true m = wrReg (m.reg ||| 1) m := by
  norm_num [mosi_set]

lemma mosi_false_eq (m : M) : mosi_set false m = wrReg (m.reg &&& 254) m := by
  norm_num [mosi_set]

/-! ### Mask arithmetic on bytes -/

lemma and_le_lt (x c n : Nat) (h : x < n) : x &&& c < n :=
  lt_of_le_of_lt Nat.and_le_left h

lemma or_lt_256 (x c : Nat) (hx : x < 256) (hc : c < 256) : x ||| c < 256 := by
  have := Nat.or_lt_two_pow (n := 8) (by simpa using hx) (by simpa using hc)
  simpa using this

lemma testBit_ge8_false (x k : Nat) (hx : x < 256) (hk : 8 ≤ k) :
    x.testBit k = false := by
  apply Nat.testBit_lt_two_pow
  calc x < 256 := hx
    _ = 2 ^ 8 := by norm_num
    _ ≤ 2 ^ k := Nat.pow_le_pow_right (by norm_num) hk

lemma pv_testBit0 (x : Nat) : ((x &&& 253) ||| 2).testBit 0 = x.testBit 0 := by
  simp [Nat.testBit_or, Nat.testBit_and, (by decide : (253 : Nat).testBit 0 = true),
    (by decide : (2 : Nat).testBit 0 = false)]

lemma pv_testBit1 (x : Nat) : ((x &&& 253) ||| 2).testBit 1 = true := by
  simp [Nat.testBit_or, (by decide : (2 : Nat).testBit 1 = true)]

lemma pv_testBit2 (x : Nat) : ((x &&& 253) ||| 2).testBit 2 = x.testBit 2 := by
  simp [Nat.testBit_or, Nat.testBit_and, (by decide : (253 : Nat).testBit 2 = true),
    (by decide : (2 : Nat).testBit 2 = false)]

lemma pv_testBit3 (x : Nat) : ((x &&& 253) ||| 2).testBit 3 = x.testBit 3 := by
  simp [Nat.testBit_or, Nat.testBit_and, (by decide : (253 : Nat).testBit 3 = true),
    (by decide : (2 : Nat).testBit 3 = false)]

lemma pv_and1 (x : Nat) : ((x &&& 253) ||| 2) &&& 1 = x &&& 1 := by
  apply Nat.eq_of_testBit_eq
  intro i
  rcases i with _ | n
  · simp [Nat.testBit_and, Nat.testBit_or]
  · simp [Nat.testBit_and, Nat.testBit_or, Nat.testBit_succ]

lemma pv_lt (x : Nat) (h : x < 256) : (x &&& 253) ||| 2 < 256 :=
  or_lt_256 _ _ (and_le_lt _ _ _ h) (by norm_num)

lemma lo_testBit1 (x : Nat) : (x &&& 253).testBit 1 = false := by
  simp [Nat.testBit_and, (by decide : (253 : Nat).testBit 1 = false)]

/-! ### Clock pulses -/

lemma pulse_eq (m : M) :
    pulse m = wrReg ((m.reg &&& 253) ||| 2)
      { m with reg := m.reg &&& 253, trace := m.trace ++ [m.reg &&& 253] } := by
  rw [pulse, clk_lo_eq,
    wrReg_no_edge _ _ (by simp only [lo_testBit1, Bool.and_false]), clk_hi_eq]

/-- A clock pulse with the device deselected: only the register and
the trace change. -/
lemma pulse_desel (m : M) (h2 : m.reg.testBit 2 = true) :
    pulse m = { m with reg := (m.reg &&& 253) ||| 2,
                       trace := m.trace ++ [m.reg &&& 253, (m.reg &&& 253) ||| 2] } := by
  rw [pulse_eq, wrReg_desel _ _ (by rw [pv_testBit2]; exact h2)]
  simp

/-- A clock pulse with the device selected in output mode: the MOSI bit
is latched onto the wire. -/
lemma pulse_out (m : M) (h2 : m.reg.testBit 2 = false)
    (h3 : m.reg.testBit 3 = false) :
    pulse m = { m with reg := (m.reg &&& 253) ||| 2,
                       trace := m.trace ++ [m.reg &&& 253, (m.reg &&& 253) ||| 2],
                       sent := m.sent ++ [m.reg &&& 1] } := by
  rw [pulse_eq, wrReg_latch _ _ (by exact lo_testBit1 _) (pv_testBit1 _)
    (by rw [pv_testBit2]; exact h2) (by rw [pv_testBit3]; exact h3)]
  rw [pv_and1]
  simp

/-- A clock pulse with the device selected in capture mode: the device
presents its next bit in the MISO register. -/
lemma pulse_in (m : M) (h2 : m.reg.testBit 2 = false)
    (h3 : m.reg.testBit 3 = true) :
    pulse m = { m with reg := (m.reg &&& 253) ||| 2,
                       trace := m.trace ++ [m.reg &&& 253, (m.reg &&& 253) ||| 2],
                       misoReg := m.dev m.di, di := m.di + 1 } := by
  rw [pulse_eq, wrReg_present _ _ (by exact lo_testBit1 _) (pv_testBit1 _)
    (by rw [pv_testBit2]; exact h2) (by rw [pv_testBit3]; exact h3)]
  simp

/-! ### Generic single-bit mask lemmas -/

lemma tb_and_t (x c k : Nat) (h : c.testBit k = true) :
    (x &&& c).testBit k = x.testBit k := by
  simp [Nat.testBit_and, h]

lemma tb_and_f (x c k : Nat) (h : c.testBit k = false) :
    (x &&& c).testBit k = false := by
  simp [Nat.testBit_and, h]

lemma tb_or_f (x c k : Nat) (h : c.testBit k = false) :
    (x ||| c).testBit k = x.testBit k := by
  simp [Nat.testBit_or, h]

lemma tb_or_t (x c k : Nat) (h : c.testBit k = true) :
    (x ||| c).testBit k = true := by
  simp [Nat.testBit_or, h]

lemma or1_and1 (r : Nat) : (r ||| 1) &&& 1 = 1 := by
  apply Nat.eq_of_testBit_eq
  intro i
  rcases i with _ | n
  · simp [Nat.testBit_and, Nat.testBit_or]
  · simp [Nat.testBit_and, Nat.testBit_succ]

lemma and254_and1 (r : Nat) : (r &&& 254) &&& 1 = 0 := by
  rw [Nat.and_assoc]
  norm_num

lemma toNat_decide_mod (d : Nat) : d % 2 = (decide (d % 2 = 1)).toNat := by
  rcases Nat.mod_two_eq_zero_or_one d with h | h <;> simp [h]

lemma shiftRight7_and1 (c : Nat) : (c >>> 7) &&& 1 = (c.testBit 7).toNat := by
  rw [Nat.and_one_is_mod, Nat.testBit_to_div_mod, ← Nat.shiftRight_eq_div_pow]
  exact toNat_decide_mod _

lemma and128_eq_zero_iff (c : Nat) : c &&& 128 = 0 ↔ c.testBit 7 = false := by
  have h : c &&& 128 = (c.testBit 7).toNat * 2 ^ 7 := Nat.and_two_pow c 7
  rw [h]
  cases c.testBit 7 <;> simp

/-! ### Dummy clock cycles -/

lemma dummy_cycles_spec (n : Nat) : ∀ m : M, m.reg < 256 → m.reg.testBit 2 = true →
    (dummy_cycles n m).reg < 256 ∧
    (dummy_cycles n m).reg.testBit 2 = true ∧
    (dummy_cycles n m).reg.testBit 3 = m.reg.testBit 3 ∧
    (dummy_cycles n m).sent = m.sent ∧
    (dummy_cycles n m).di = m.di ∧
    (dummy_cycles n m).misoReg = m.misoReg ∧
    (dummy_cycles n m).ti = m.ti ∧
    (dummy_cycles n m).jif = m.jif ∧
    (dummy_cycles n m).dev = m.dev ∧
    (dummy_cycles n m).trace = m.trace ++ dTrace n m.reg := by
  induction n with
  | zero =>
    intro m h1 h2
    simp [dummy_cycles, dTrace, h1, h2]
  | succ n ih =>
    intro m h1 h2
    rw [dummy_cycles, pulse_desel m h2]
    obtain ⟨i1, i2, i3, i4, i5, i6, i7, i8, i9, i10⟩ :=
      ih { m with reg := (m.reg &&& 253) ||| 2,
                  trace := m.trace ++ [m.reg &&& 253, (m.reg &&& 253) ||| 2] }
        (pv_lt _ h1)
        (by show ((m.reg &&& 253) ||| 2).testBit 2 = true; rw [pv_testBit2]; exact h2)
    refine ⟨i1, i2, ?_, i4, i5, i6, i7, i8, i9, ?_⟩
    · rw [i3]
      simpa using pv_testBit3 m.reg
    · rw [i10, dTrace]
      simp

/-! ### The byte send loop -/

lemma sendLoop_spec (n : Nat) : ∀ c m, m.reg < 256 →
    m.reg.testBit 2 = false → m.reg.testBit 3 = false →
    (sendLoop n c m).reg < 256 ∧
    (sendLoop n c m).reg.testBit 2 = false ∧
    (sendLoop n c m).reg.testBit 3 = false ∧
    (sendLoop n c m).sent = m.sent ++ msbBits n c ∧
    (sendLoop n c m).di = m.di ∧
    (sendLoop n c m).misoReg = m.misoReg ∧
    (sendLoop n c m).ti = m.ti ∧
    (sendLoop n c m).jif = m.jif ∧
    (sendLoop n c m).dev = m.dev ∧
    ∃ tr, (sendLoop n c m).trace = m.trace ++ tr := by
  induction n with
  | zero =>
    intro c m h1 h2 h3
    refine ⟨h1, h2, h3, by simp [sendLoop, msbBits], ?_, ?_, ?_, ?_, ?_, [], by simp [sendLoop]⟩ <;> rfl
  | succ n ih =>
    intro c m h1 h2 h3
    rw [sendLoop]
    have hmosi : ∃ v, mosi_set (c &&& 0x80 != 0) m
          = { m with reg := v, trace := m.trace ++ [v] } ∧
        v &&& 1 = (c >>> 7) &&& 1 ∧ v < 256 ∧ v.testBit 1 = m.reg.testBit 1 ∧
        v.testBit 2 = false ∧ v.testBit 3 = false := by
      rcases hb : (c &&& 0x80 != 0) with _ | _
      · refine ⟨m.reg &&& 254, ?_, ?_, and_le_lt _ _ _ h1, tb_and_t _ _ _ (by decide),
          by rw [tb_and_t _ _ _ (by decide)]; exact h2,
          by rw [tb_and_t _ _ _ (by decide)]; exact h3⟩
        · rw [mosi_false_eq,
            wrReg_no_edge _ _ (by rw [tb_and_t _ _ _ (by decide)]; exact Bool.not_and_self _)]
        · rw [and254_and1, shiftRight7_and1]
          have : c &&& 128 = 0 := by simpa using hb
          rw [(and128_eq_zero_iff c).mp this]
          rfl
      · refine ⟨m.reg ||| 1, ?_, ?_, or_lt_256 _ _ h1 (by norm_num), tb_or_f _ _ _ (by decide),
          by rw [tb_or_f _ _ _ (by decide)]; exact h2,
          by rw [tb_or_f _ _ _ (by decide)]; exact h3⟩
        · rw [mosi_true_eq,
            wrReg_no_edge _ _ (by rw [tb_or_f _ _ _ (by decide)]; exact Bool.not_and_self _)]
        · rw [or1_and1, shiftRight7_and1]
          have h0 : ¬ c &&& 128 = 0 := by simpa using hb
          have : c.testBit 7 = true := by
            rcases hc : c.testBit 7 with _ | _
            · exact absurd ((and128_eq_zero_iff c).mpr hc) h0
            · rfl
          rw [this]
          rfl
    obtain ⟨v, hv, hvand, hvlt, hv1, hv2, hv3⟩ := hmosi
    rw [hv, pulse_out _ (by simpa using hv2) (by simpa using hv3)]
    obtain ⟨i1, i2, i3, i4, i5, i6, i7, i8, i9, tr, i10⟩ :=
      ih ((c <<< 1) % 256)
        { m with reg := (v &&& 253) ||| 2,
                 trace := m.trace ++ [v] ++ [v &&& 253, (v &&& 253) ||| 2],
                 sent := m.sent ++ [v &&& 1] }
        (pv_lt _ hvlt)
        (by show ((v &&& 253) ||| 2).testBit 2 = false; rw [pv_testBit2]; exact hv2)
        (by show ((v &&& 253) ||| 2).testBit 3 = false; rw [pv_testBit3]; exact hv3)
    refine ⟨i1, i2, i3, ?_, i5, i6, i7, i8, i9, ?_⟩
    · rw [i4, hvand, msbBits]
      simp
    · exact ⟨[v] ++ [v &&& 253, (v &&& 253) ||| 2] ++ tr, by rw [i10]; simp⟩

/-! ### Single control-line writes at their call-site values -/

lemma enable_lo_spec (m : M) :
    enable (compl8 MISO_MODE) m
      = { m with reg := m.reg &&& 247, trace := m.trace ++ [m.reg &&& 247] } := by
  rw [enable_lo_eq,
    wrReg_no_edge _ _ (by rw [tb_and_t _ _ _ (by decide)]; exact Bool.not_and_self _)]

lemma enable_hi_spec (m : M) :
    enable MISO_MODE m
      = { m with reg := m.reg ||| 8, trace := m.trace ++ [m.reg ||| 8] } := by
  rw [enable_hi_eq,
    wrReg_no_edge _ _ (by rw [tb_or_f _ _ _ (by decide)]; exact Bool.not_and_self _)]

lemma cs_hi_spec (m : M) :
    cs CS_ENABLE m
      = { m with reg := m.reg ||| 4, trace := m.trace ++ [m.reg ||| 4] } := by
  rw [cs_hi_eq,
    wrReg_no_edge _ _ (by rw [tb_or_f _ _ _ (by decide)]; exact Bool.not_and_self _)]

lemma cs_lo_spec (m : M) :
    cs (compl8 CS_ENABLE) m
      = { m with reg := m.reg &&& 251, trace := m.trace ++ [m.reg &&& 251] } := by
  rw [cs_lo_eq,
    wrReg_no_edge _ _ (by rw [tb_and_t _ _ _ (by decide)]; exact Bool.not_and_self _)]

/-! ### Fields no bus operation ever touches -/

/-- The byte-level machinery never reads or advances time and never
replaces the device stream. -/
def quiet (m m' : M) : Prop := m'.ti = m.ti ∧ m'.jif = m.jif ∧ m'.dev = m.dev

lemma quiet_refl (m : M) : quiet m m := ⟨rfl, rfl, rfl⟩

lemma quiet_trans {a b c : M} (h1 : quiet a b) (h2 : quiet b c) : quiet a c :=
  ⟨h2.1.trans h1.1, h2.2.1.trans h1.2.1, h2.2.2.trans h1.2.2⟩

lemma quiet_wrReg (v : Nat) (m : M) : quiet m (wrReg v m) :=
  ⟨wrReg_ti _ _, wrReg_jif _ _, wrReg_dev _ _⟩

lemma quiet_cs (nv : Nat) (m : M) : quiet m (cs nv m) := quiet_wrReg _ _

lemma quiet_clk (nv : Nat) (m : M) : quiet m (clk nv m) := quiet_wrReg _ _

lemma quiet_enable (nv : Nat) (m : M) : quiet m (enable nv m) := quiet_wrReg _ _

lemma quiet_mosi (b : Bool) (m : M) : quiet m (mosi_set b m) := quiet_wrReg _ _

lemma quiet_pulse (m : M) : quiet m (pulse m) :=
  quiet_trans (quiet_clk _ _) (quiet_clk _ _)

lemma quiet_dummy (n : Nat) : ∀ m : M, quiet m (dummy_cycles n m) := by
  induction n with
  | zero => intro m; exact quiet_refl m
  | succ n ih =>
    intro m
    exact quiet_trans (quiet_pulse m) (ih (pulse m))

lemma quiet_sendLoop (n : Nat) : ∀ c (m : M), quiet m (sendLoop n c m) := by
  induction n with
  | zero => intro c m; exact quiet_refl m
  | succ n ih =>
    intro c m
    exact quiet_trans (quiet_trans (quiet_mosi _ m) (quiet_pulse _)) (ih _ _)

lemma quiet_send (c : Nat) (m : M) : quiet m (spi_bitbang_send c m) :=
  quiet_sendLoop 8 _ m

lemma quiet_recvLoop (n : Nat) : ∀ acc (m : M), quiet m (recvLoop n acc m).2 := by
  induction n with
  | zero => intro acc m; exact quiet_refl m
  | succ n ih =>
    intro acc m
    exact quiet_trans (quiet_pulse m) (ih _ _)

lemma quiet_readLoop (n : Nat) : ∀ m : M, quiet m (readLoop n m).2 := by
  induction n with
  | zero => intro m; exact quiet_refl m
  | succ n ih =>
    intro m
    exact quiet_trans (quiet_recvLoop 8 0 m) (ih _)

lemma quiet_write_command (c : Nat) (m : M) : quiet m (write_command c m) :=
  quiet_trans (quiet_enable _ _)
    (quiet_trans (quiet_dummy _ _) (quiet_trans (quiet_cs _ _) (quiet_send _ _)))

lemma quiet_write_address (a : Nat) (m : M) : quiet m (write_address a m) :=
  quiet_trans (quiet_send _ _) (quiet_trans (quiet_send _ _) (quiet_send _ _))

lemma quiet_foldl_send (data : List Nat) :
    ∀ m : M, quiet m (data.foldl (fun s b => spi_bitbang_send b s) m) := by
  induction data with
  | nil => intro m; exact quiet_refl m
  | cons b bs ih => intro m; exact quiet_trans (quiet_send b m) (ih _)

lemma quiet_write_data (data : List Nat) (m : M) : quiet m (write_data data m) :=
  quiet_trans (quiet_enable _ _) (quiet_foldl_send data _)

lemma quiet_read_data (len : Nat) (m : M) : quiet m (read_data len m).2 :=
  quiet_trans (quiet_enable _ _) (quiet_readLoop _ _)

lemma quiet_read_reg (op len : Nat) (m : M) :
    quiet m (spi_flash_nor_read_reg op len m).2.2 :=
  quiet_trans (quiet_write_command _ _)
    (quiet_trans (quiet_read_data _ _) (quiet_cs _ _))

lemma quiet_read_status (op : Nat) (m : M) : quiet m (read_status op m).2 :=
  quiet_read_reg op 1 m

/-! ### The byte receive loop -/

lemma recvLoop_spec (n : Nat) : ∀ acc (m : M), m.reg < 256 →
    m.reg.testBit 2 = false → m.reg.testBit 3 = true →
    (recvLoop n acc m).1 = recvPure n acc m.dev m.di ∧
    (recvLoop n acc m).2.reg < 256 ∧
    (recvLoop n acc m).2.reg.testBit 2 = false ∧
    (recvLoop n acc m).2.reg.testBit 3 = true ∧
    (recvLoop n acc m).2.sent = m.sent ∧
    (recvLoop n acc m).2.di = m.di + n ∧
    (recvLoop n acc m).2.misoReg = (if n = 0 then m.misoReg else m.dev (m.di + n - 1)) ∧
    ∃ tr, (recvLoop n acc m).2.trace = m.trace ++ tr := by
  induction n with
  | zero =>
    intro acc m h1 h2 h3
    exact ⟨rfl, h1, h2, h3, rfl, by simp [recvLoop], by simp [recvLoop], [], by simp [recvLoop]⟩
  | succ n ih =>
    intro acc m h1 h2 h3
    have hstep : recvLoop (n + 1) acc m
        = recvLoop n (acc ||| (miso_read (pulse m) <<< n)) (pulse m) := rfl
    rw [hstep, pulse_in m h2 h3]
    obtain ⟨i1, i2, i3, i4, i5, i6, i7, tr, i8⟩ :=
      ih (acc ||| (miso_read { m with
              reg := (m.reg &&& 253) ||| 2,
              trace := m.trace ++ [m.reg &&& 253, (m.reg &&& 253) ||| 2],
              misoReg := m.dev m.di, di := m.di + 1 } <<< n))
        { m with
          reg := (m.reg &&& 253) ||| 2,
          trace := m.trace ++ [m.reg &&& 253, (m.reg &&& 253) ||| 2],
          misoReg := m.dev m.di, di := m.di + 1 }
        (pv_lt _ h1)
        (by show ((m.reg &&& 253) ||| 2).testBit 2 = false; rw [pv_testBit2]; exact h2)
        (by show ((m.reg &&& 253) ||| 2).testBit 3 = true; rw [pv_testBit3]; exact h3)
    refine ⟨?_, i2, i3, i4, i5, ?_, ?_, ?_⟩
    · rw [i1]; rfl
    · rw [i6]; show m.di + 1 + n = m.di + (n + 1); omega
    · rw [i7]
      rcases n with _ | k
      · simp
      · have : ¬ (k + 1 + 1 = 0) := by omega
        simp only [if_neg this, if_neg (by omega : ¬ (k + 1 = 0))]
        show m.dev (m.di + 1 + (k + 1) - 1) = m.dev (m.di + (k + 1 + 1) - 1)
        congr 1
        omega
    · exact ⟨[m.reg &&& 253, (m.reg &&& 253) ||| 2] ++ tr, by rw [i8]; simp⟩

/-! ### The transaction sequencer -/

lemma spi_bitbang_send_spec (c : Nat) (m : M) (h1 : m.reg < 256)
    (h2 : m.reg.testBit 2 = false) (h3 : m.reg.testBit 3 = false) :
    (spi_bitbang_send c m).reg < 256 ∧
    (spi_bitbang_send c m).reg.testBit 2 = false ∧
    (spi_bitbang_send c m).reg.testBit 3 = false ∧
    (spi_bitbang_send c m).sent = m.sent ++ msbBits 8 (c % 256) ∧
    (spi_bitbang_send c m).di = m.di ∧
    (spi_bitbang_send c m).misoReg = m.misoReg ∧
    ∃ tr, (spi_bitbang_send c m).trace = m.trace ++ tr := by
  obtain ⟨a1, a2, a3, a4, a5, a6, a7, a8, a9, a10⟩ := sendLoop_spec 8 (c % 256) m h1 h2 h3
  exact ⟨a1, a2, a3, a4, a5, a6, a10⟩

lemma write_command_spec (c : Nat) (m : M) (h1 : m.reg < 256)
    (h2 : m.reg.testBit 2 = true) (hc : c < 256) :
    (write_command c m).reg < 256 ∧
    (write_command c m).reg.testBit 2 = false ∧
    (write_command c m).reg.testBit 3 = false ∧
    (write_command c m).sent = m.sent ++ msbBits 8 c ∧
    (write_command c m).di = m.di ∧
    (write_command c m).misoReg = m.misoReg ∧
    ∃ tr, (write_command c m).trace = m.trace ++ tr := by
  have hc' : c % 256 = c := Nat.mod_eq_of_lt hc
  have e_reg : (enable (compl8 MISO_MODE) m).reg = m.reg &&& 247 := by rw [enable_lo_spec]
  have e_sent : (enable (compl8 MISO_MODE) m).sent = m.sent := by rw [enable_lo_spec]
  have e_di : (enable (compl8 MISO_MODE) m).di = m.di := by rw [enable_lo_spec]
  have e_miso : (enable (compl8 MISO_MODE) m).misoReg = m.misoReg := by rw [enable_lo_spec]
  have e_tr : (enable (compl8 MISO_MODE) m).trace = m.trace ++ [m.reg &&& 247] := by
    rw [enable_lo_spec]
  obtain ⟨d1, d2, d3, d4, d5, d6, d7, d8, d9, d10⟩ :=
    dummy_cycles_spec DUMMY_CYCLES (enable (compl8 MISO_MODE) m)
      (by rw [e_reg]; exact and_le_lt _ _ _ h1)
      (by rw [e_reg, tb_and_t _ _ _ (by decide)]; exact h2)
  have c_reg : (cs (compl8 CS_ENABLE) (dummy_cycles DUMMY_CYCLES (enable (compl8 MISO_MODE) m))).reg
      = (dummy_cycles DUMMY_CYCLES (enable (compl8 MISO_MODE) m)).reg &&& 251 := by
    rw [cs_lo_spec]
  have c_sent : (cs (compl8 CS_ENABLE) (dummy_cycles DUMMY_CYCLES (enable (compl8 MISO_MODE) m))).sent
      = (dummy_cycles DUMMY_CYCLES (enable (compl8 MISO_MODE) m)).sent := by
    rw [cs_lo_spec]
  have c_di : (cs (compl8 CS_ENABLE) (dummy_cycles DUMMY_CYCLES (enable (compl8 MISO_MODE) m))).di
      = (dummy_cycles DUMMY_CYCLES (enable (compl8 MISO_MODE) m)).di := by
    rw [cs_lo_spec]
  have c_miso : (cs (compl8 CS_ENABLE) (dummy_cycles DUMMY_CYCLES (enable (compl8 MISO_MODE) m))).misoReg
      = (dummy_cycles DUMMY_CYCLES (enable (compl8 MISO_MODE) m)).misoReg := by
    rw [cs_lo_spec]
  have c_trace : (cs (compl8 CS_ENABLE) (dummy_cycles DUMMY_CYCLES (enable (compl8 MISO_MODE) m))).trace
      = (dummy_cycles DUMMY_CYCLES (enable (compl8 MISO_MODE) m)).trace
        ++ [(dummy_cycles DUMMY_CYCLES (enable (compl8 MISO_MODE) m)).reg &&& 251] := by
    rw [cs_lo_spec]
  obtain ⟨s1, s2, s3, s4, s5, s6, tr, s10⟩ :=
    spi_bitbang_send_spec c (cs (compl8 CS_ENABLE) (dummy_cycles DUMMY_CYCLES (enable (compl8 MISO_MODE) m)))
      (by rw [c_reg]; exact and_le_lt _ _ _ d1)
      (by rw [c_reg]; exact tb_and_f _ _ _ (by decide))
      (by rw [c_reg, tb_and_t _ _ _ (by decide), d3, e_reg]; exact tb_and_f _ _ _ (by decide))
  rw [write_command]
  refine ⟨s1, s2, s3, ?_, ?_, ?_, ?_⟩
  · rw [s4, c_sent, d4, e_sent, hc']
  · rw [s5, c_di, d5, e_di]
  · rw [s6, c_miso, d6, e_miso]
  · refine ⟨[m.reg &&& 247] ++ dTrace DUMMY_CYCLES (m.reg &&& 247)
      ++ [(dummy_cycles DUMMY_CYCLES (enable (compl8 MISO_MODE) m)).reg &&& 251] ++ tr, ?_⟩
    rw [s10, c_trace, d10, e_tr, e_reg]
    simp

lemma write_address_spec (a : Nat) (m : M) (h1 : m.reg < 256)
    (h2 : m.reg.testBit 2 = false) (h3 : m.reg.testBit 3 = false) :
    (write_address a m).reg < 256 ∧
    (write_address a m).reg.testBit 2 = false ∧
    (write_address a m).reg.testBit 3 = false ∧
    (write_address a m).sent = m.sent ++ msbBits 8 ((a >>> 16) &&& 0xFF)
      ++ msbBits 8 ((a >>> 8) &&& 0xFF) ++ msbBits 8 (a &&& 0xFF) ∧
    (write_address a m).di = m.di ∧
    (write_address a m).misoReg = m.misoReg ∧
    ∃ tr, (write_address a m).trace = m.trace ++ tr := by
  have hb : ∀ i, addrByte a i % 256 = addrByte a i := by
    intro i
    exact Nat.mod_eq_of_lt (lt_of_le_of_lt Nat.and_le_right (by norm_num))
  obtain ⟨p1, p2, p3, p4, p5, p6, t1, p10⟩ :=
    spi_bitbang_send_spec (addrByte a 2) m h1 h2 h3
  obtain ⟨q1, q2, q3, q4, q5, q6, t2, q10⟩ :=
    spi_bitbang_send_spec (addrByte a 1) (spi_bitbang_send (addrByte a 2) m) p1 p2 p3
  obtain ⟨r1, r2, r3, r4, r5, r6, t3, r10⟩ :=
    spi_bitbang_send_spec (addrByte a 0)
      (spi_bitbang_send (addrByte a 1) (spi_bitbang_send (addrByte a 2) m)) q1 q2 q3
  rw [write_address]
  refine ⟨r1, r2, r3, ?_, ?_, ?_, ?_⟩
  · rw [r4, q4, p4, hb, hb, hb]
    show _ = m.sent ++ msbBits 8 (addrByte a 2) ++ msbBits 8 (addrByte a 1) ++ msbBits 8 (addrByte a 0)
    simp [List.append_assoc]
  · rw [r5, q5, p5]
  · rw [r6, q6, p6]
  · exact ⟨t1 ++ t2 ++ t3, by rw [r10, q10, p10]; simp⟩

/-! ### Status-register reads -/

lemma read_status_spec (op : Nat) (m : M) (h1 : m.reg < 256)
    (h2 : m.reg.testBit 2 = true) (hop : op < 256) :
    (read_status op m).1 = recvPure 8 0 m.dev m.di ∧
    (read_status op m).2.reg < 256 ∧
    (read_status op m).2.reg.testBit 2 = true ∧
    (read_status op m).2.sent = m.sent ++ msbBits 8 op ∧
    (read_status op m).2.di = m.di + 8 ∧
    (read_status op m).2.ti = m.ti ∧
    (read_status op m).2.jif = m.jif ∧
    (read_status op m).2.dev = m.dev ∧
    ∃ tr, (read_status op m).2.trace = m.trace ++ tr := by
  obtain ⟨w1, w2, w3, w4, w5, w6, wtr, w7⟩ := write_command_spec op m h1 h2 hop
  obtain ⟨qd1, qd2, qd3⟩ := quiet_write_command op m
  have e_reg : (enable MISO_MODE (write_command op m)).reg
      = (write_command op m).reg ||| 8 := by rw [enable_hi_spec]
  have e_sent : (enable MISO_MODE (write_command op m)).sent
      = (write_command op m).sent := by rw [enable_hi_spec]
  have e_di : (enable MISO_MODE (write_command op m)).di
      = (write_command op m).di := by rw [enable_hi_spec]
  have e_dev : (enable MISO_MODE (write_command op m)).dev
      = (write_command op m).dev := by rw [enable_hi_spec]
  have e_tr : (enable MISO_MODE (write_command op m)).trace
      = (write_command op m).trace ++ [(write_command op m).reg ||| 8] := by
    rw [enable_hi_spec]
  obtain ⟨r1, r2, r3, r4, r5, r6, r7, rtr, r8⟩ :=
    recvLoop_spec 8 0 (enable MISO_MODE (write_command op m))
      (by rw [e_reg]; exact or_lt_256 _ _ w1 (by norm_num))
      (by rw [e_reg, tb_or_f _ _ _ (by decide)]; exact w2)
      (by rw [e_reg]; exact tb_or_t _ _ _ (by decide))
  have hrs1 : (read_status op m).1
      = (recvLoop 8 0 (enable MISO_MODE (write_command op m))).1 := rfl
  have hrs2 : (read_status op m).2
      = cs CS_ENABLE (recvLoop 8 0 (enable MISO_MODE (write_command op m))).2 := rfl
  have c_reg : (read_status op m).2.reg
      = (recvLoop 8 0 (enable MISO_MODE (write_command op m))).2.reg ||| 4 := by
    rw [hrs2, cs_hi_spec]
  have c_sent : (read_status op m).2.sent
      = (recvLoop 8 0 (enable MISO_MODE (write_command op m))).2.sent := by
    rw [hrs2, cs_hi_spec]
  have c_di : (read_status op m).2.di
      = (recvLoop 8 0 (enable MISO_MODE (write_command op m))).2.di := by
    rw [hrs2, cs_hi_spec]
  have c_tr : (read_status op m).2.trace
      = (recvLoop 8 0 (enable MISO_MODE (write_command op m))).2.trace
        ++ [(recvLoop 8 0 (enable MISO_MODE (write_command op m))).2.reg ||| 4] := by
    rw [hrs2, cs_hi_spec]
  obtain ⟨t1, t2, t3⟩ := quiet_read_status op m
  refine ⟨?_, ?_, ?_, ?_, ?_, t1, t2, t3, ?_⟩
  · rw [hrs1, r1, e_dev, qd3, e_di, w5]
  · rw [c_reg]; exact or_lt_256 _ _ r2 (by norm_num)
  · rw [c_reg]; exact tb_or_t _ _ _ (by decide)
  · rw [c_sent, r5, e_sent, w4]
  · rw [c_di, r6, e_di, w5]
  · refine ⟨wtr ++ [(write_command op m).reg ||| 8] ++ rtr
      ++ [(recvLoop 8 0 (enable MISO_MODE (write_command op m))).2.reg ||| 4], ?_⟩
    rw [c_tr, r8, e_tr, w7]
    simp

/-- Every status-register read deselects the device at its end,
whatever the entry state. -/
lemma read_status_final_cs (op : Nat) (m : M) :
    (read_status op m).2.reg.testBit 2 = true := by
  have hrs2 : (read_status op m).2
      = cs CS_ENABLE (read_data 1 (write_command op m)).2 := rfl
  rw [hrs2, cs_hi_eq, wrReg_reg]
  exact tb_or_t _ _ _ (by decide)

/-! ### Receiving from a byte-stream device -/

lemma recvPure_congr (n : Nat) : ∀ (acc : Nat) (f g : Nat → Nat) (i j : Nat),
    (∀ d, d < n → f (i + d) = g (j + d)) →
    recvPure n acc f i = recvPure n acc g j := by
  induction n with
  | zero => intro acc f g i j _; rfl
  | succ n ih =>
    intro acc f g i j h
    show recvPure n (acc ||| ((f i &&& 1) <<< n)) f (i + 1)
        = recvPure n (acc ||| ((g j &&& 1) <<< n)) g (j + 1)
    have h0 : f i = g j := by simpa using h 0 (by omega)
    rw [h0]
    refine ih _ _ _ _ _ (fun d hd => ?_)
    have := h (d + 1) (by omega)
    have e1 : i + (d + 1) = i + 1 + d := by omega
    have e2 : j + (d + 1) = j + 1 + d := by omega
    rw [e1, e2] at this
    exact this

set_option maxRecDepth 4000 in
lemma recvPure_msbBits : ∀ b : Nat, b < 256 →
    recvPure 8 0 (fun j => (msbBits 8 b).getD j 0) 0 = b := by decide

lemma recvPure_devOfBytes (bs : List Nat) (k : Nat) (hb : bs.getD k 0 < 256) :
    recvPure 8 0 (devOfBytes bs) (8 * k) = bs.getD k 0 := by
  have hcong : recvPure 8 0 (devOfBytes bs) (8 * k)
      = recvPure 8 0 (fun j => (msbBits 8 (bs.getD k 0)).getD j 0) 0 := by
    refine recvPure_congr 8 0 _ _ _ _ (fun d hd => ?_)
    show devOfBytes bs (8 * k + d) = (msbBits 8 (bs.getD k 0)).getD (0 + d) 0
    have h1 : (8 * k + d) / 8 = k := by omega
    have h2 : (8 * k + d) % 8 = d := by omega
    simp only [devOfBytes, h1, h2, Nat.zero_add]
  rw [hcong, recvPure_msbBits _ hb]

/-! ### The busy-wait guard, one poll at a time -/

lemma busy_eq_busyLoop (t op flag fuel : Nat) (m : M) :
    busy t op flag fuel m
      = busyLoop (m.jif m.ti + t) op flag fuel { m with ti := m.ti + 1 } := rfl

lemma busyLoop_poll_clear (endT op flag f k : Nat) (bs : List Nat) (m : M)
    (hreg : m.reg < 256) (hcs : m.reg.testBit 2 = true) (hop : op < 256)
    (hdev : m.dev = devOfBytes bs) (hdi : m.di = 8 * k)
    (hb : bs.getD k 0 < 256) (hclear : bs.getD k 0 &&& flag = 0) :
    ∃ m', busyLoop endT op flag (f + 1) m = some (0, m') ∧
      m'.reg < 256 ∧ m'.reg.testBit 2 = true ∧ m'.dev = m.dev ∧
      m'.di = 8 * (k + 1) ∧ m'.ti = m.ti ∧ m'.jif = m.jif ∧
      m'.sent = m.sent ++ msbBits 8 op := by
  obtain ⟨s1, s2, s3, s4, s5, s6, s7, s8, _⟩ := read_status_spec op m hreg hcs hop
  have hval : (read_status op m).1 = bs.getD k 0 := by
    rw [s1, hdev, hdi, recvPure_devOfBytes bs k hb]
  have hcond : ((read_status op m).1 &&& flag != 0) = false := by
    rw [hval, hclear]
    rfl
  have hstep : busyLoop endT op flag (f + 1) m
      = if ((read_status op m).1 &&& flag != 0) = true then
          (if endT < (nowObs (read_status op m).2).1
            then some (-ETIMEDOUT, (nowObs (read_status op m).2).2)
            else busyLoop endT op flag f (nowObs (read_status op m).2).2)
        else some (0, (read_status op m).2) := rfl
  rw [hstep, hcond]
  refine ⟨(read_status op m).2, by simp, s2, s3, s8, ?_, s6, s7, s4⟩
  rw [s5, hdi]
  omega

lemma busyLoop_poll_timeout (endT op flag f k : Nat) (bs : List Nat) (m : M)
    (hreg : m.reg < 256) (hcs : m.reg.testBit 2 = true) (hop : op < 256)
    (hdev : m.dev = devOfBytes bs) (hdi : m.di = 8 * k)
    (hb : bs.getD k 0 < 256) (hset : bs.getD k 0 &&& flag ≠ 0)
    (ht : endT < m.jif m.ti) :
    ∃ m', busyLoop endT op flag (f + 1) m = some (-ETIMEDOUT, m') ∧
      m'.reg < 256 ∧ m'.reg.testBit 2 = true ∧ m'.dev = m.dev ∧
      m'.di = 8 * (k + 1) ∧ m'.ti = m.ti + 1 ∧ m'.jif = m.jif ∧
      m'.sent = m.sent ++ msbBits 8 op := by
  obtain ⟨s1, s2, s3, s4, s5, s6, s7, s8, _⟩ := read_status_spec op m hreg hcs hop
  have hval : (read_status op m).1 = bs.getD k 0 := by
    rw [s1, hdev, hdi, recvPure_devOfBytes bs k hb]
  have hcond : ((read_status op m).1 &&& flag != 0) = true := by
    rw [hval]
    simpa using hset
  have hnow : (nowObs (read_status op m).2).1 = m.jif m.ti := by
    show (read_status op m).2.jif (read_status op m).2.ti = m.jif m.ti
    rw [s6, s7]
  have hstep : busyLoop endT op flag (f + 1) m
      = if ((read_status op m).1 &&& flag != 0) = true then
          (if endT < (nowObs (read_status op m).2).1
            then some (-ETIMEDOUT, (nowObs (read_status op m).2).2)
            else busyLoop endT op flag f (nowObs (read_status op m).2).2)
        else some (0, (read_status op m).2) := rfl
  rw [hstep, hcond, if_pos rfl, if_pos (by rw [hnow]; exact ht)]
  refine ⟨(nowObs (read_status op m).2).2, rfl, s2, s3, s8, ?_, ?_, s7, s4⟩
  · show (read_status op m).2.di = 8 * (k + 1)
    rw [s5, hdi]
    omega
  · show (read_status op m).2.ti + 1 = m.ti + 1
    rw [s6]

lemma busyLoop_poll_continue (endT op flag f k : Nat) (bs : List Nat) (m : M)
    (hreg : m.reg < 256) (hcs : m.reg.testBit 2 = true) (hop : op < 256)
    (hdev : m.dev = devOfBytes bs) (hdi : m.di = 8 * k)
    (hb : bs.getD k 0 < 256) (hset : bs.getD k 0 &&& flag ≠ 0)
    (ht : ¬ endT < m.jif m.ti) :
    ∃ m2, busyLoop endT op flag (f + 1) m = busyLoop endT op flag f m2 ∧
      m2.reg < 256 ∧ m2.reg.testBit 2 = true ∧ m2.dev = m.dev ∧
      m2.di = 8 * (k + 1) ∧ m2.ti = m.ti + 1 ∧ m2.jif = m.jif ∧
      m2.sent = m.sent ++ msbBits 8 op := by
  obtain ⟨s1, s2, s3, s4, s5, s6, s7, s8, _⟩ := read_status_spec op m hreg hcs hop
  have hval : (read_status op m).1 = bs.getD k 0 := by
    rw [s1, hdev, hdi, recvPure_devOfBytes bs k hb]
  have hcond : ((read_status op m).1 &&& flag != 0) = true := by
    rw [hval]
    simpa using hset
  have hnow : (nowObs (read_status op m).2).1 = m.jif m.ti := by
    show (read_status op m).2.jif (read_status op m).2.ti = m.jif m.ti
    rw [s6, s7]
  have hstep : busyLoop endT op flag (f + 1) m
      = if ((read_status op m).1 &&& flag != 0) = true then
          (if endT < (nowObs (read_status op m).2).1
            then some (-ETIMEDOUT, (nowObs (read_status op m).2).2)
            else busyLoop endT op flag f (nowObs (read_status op m).2).2)
        else some (0, (read_status op m).2) := rfl
  rw [hstep, hcond, if_pos rfl, if_neg (by rw [hnow]; exact ht)]
  refine ⟨(nowObs (read_status op m).2).2, rfl, s2, s3, s8, ?_, ?_, s7, s4⟩
  · show (read_status op m).2.di = 8 * (k + 1)
    rw [s5, hdi]
    omega
  · show (read_status op m).2.ti + 1 = m.ti + 1
    rw [s6]

lemma busy_poll_clear (t op flag f k : Nat) (bs : List Nat) (m : M)
    (hreg : m.reg < 256) (hcs : m.reg.testBit 2 = true) (hop : op < 256)
    (hdev : m.dev = devOfBytes bs) (hdi : m.di = 8 * k)
    (hb : bs.getD k 0 < 256) (hclear : bs.getD k 0 &&& flag = 0) :
    ∃ m', busy t op flag (f + 1) m = some (0, m') ∧
      m'.reg < 256 ∧ m'.reg.testBit 2 = true ∧ m'.dev = m.dev ∧
      m'.di = 8 * (k + 1) ∧ m'.ti = m.ti + 1 ∧ m'.jif = m.jif ∧
      m'.sent = m.sent ++ msbBits 8 op := by
  rw [busy_eq_busyLoop]
  obtain ⟨m', h, c1, c2, c3, c4, c5, c6, c7⟩ :=
    busyLoop_poll_clear (m.jif m.ti + t) op flag f k bs { m with ti := m.ti + 1 }
      hreg hcs hop hdev hdi hb hclear
  exact ⟨m', h, c1, c2, c3, c4, c5, c6, c7⟩

lemma busy_poll_timeout (t op flag f k : Nat) (bs : List Nat) (m : M)
    (hreg : m.reg < 256) (hcs : m.reg.testBit 2 = true) (hop : op < 256)
    (hdev : m.dev = devOfBytes bs) (hdi : m.di = 8 * k)
    (hb : bs.getD k 0 < 256) (hset : bs.getD k 0 &&& flag ≠ 0)
    (ht : m.jif m.ti + t < m.jif (m.ti + 1)) :
    ∃ m', busy t op flag (f + 1) m = some (-ETIMEDOUT, m') ∧
      m'.reg < 256 ∧ m'.reg.testBit 2 = true ∧ m'.dev = m.dev ∧
      m'.di = 8 * (k + 1) ∧ m'.ti = m.ti + 2 ∧ m'.jif = m.jif ∧
      m'.sent = m.sent ++ msbBits 8 op := by
  rw [busy_eq_busyLoop]
  obtain ⟨m', h, c1, c2, c3, c4, c5, c6, c7⟩ :=
    busyLoop_poll_timeout (m.jif m.ti + t) op flag f k bs { m with ti := m.ti + 1 }
      hreg hcs hop hdev hdi hb hset ht
  exact ⟨m', h, c1, c2, c3, c4, c5, c6, c7⟩

lemma busy_second_clear (t op flag f k : Nat) (bs : List Nat) (m : M)
    (hreg : m.reg < 256) (hcs : m.reg.testBit 2 = true) (hop : op < 256)
    (hdev : m.dev = devOfBytes bs) (hdi : m.di = 8 * k)
    (hb : bs.getD k 0 < 256) (hset : bs.getD k 0 &&& flag ≠ 0)
    (ht : ¬ m.jif m.ti + t < m.jif (m.ti + 1))
    (hb1 : bs.getD (k + 1) 0 < 256) (hclear1 : bs.getD (k + 1) 0 &&& flag = 0) :
    ∃ m', busy t op flag (f + 2) m = some (0, m') ∧
      m'.reg < 256 ∧ m'.reg.testBit 2 = true ∧ m'.dev = m.dev ∧
      m'.di = 8 * (k + 2) ∧ m'.ti = m.ti + 2 ∧ m'.jif = m.jif ∧
      m'.sent = m.sent ++ msbBits 8 op ++ msbBits 8 op := by
  rw [busy_eq_busyLoop]
  obtain ⟨m2, h, c1, c2, c3, c4, c5, c6, c7⟩ :=
    busyLoop_poll_continue (m.jif m.ti + t) op flag (f + 1) k bs { m with ti := m.ti + 1 }
      hreg hcs hop hdev hdi hb hset ht
  rw [h]
  obtain ⟨m', h', d1, d2, d3, d4, d5, d6, d7⟩ :=
    busyLoop_poll_clear (m.jif m.ti + t) op flag f (k + 1) bs m2
      c1 c2 hop (by rw [c3]; exact hdev) c4 hb1 hclear1
  refine ⟨m', h', d1, d2, by rw [d3, c3], d4, ?_, by rw [d6, c6], ?_⟩
  · rw [d5, c5]
  · rw [d7, c7]

lemma busy_second_timeout (t op flag f k : Nat) (bs : List Nat) (m : M)
    (hreg : m.reg < 256) (hcs : m.reg.testBit 2 = true) (hop : op < 256)
    (hdev : m.dev = devOfBytes bs) (hdi : m.di = 8 * k)
    (hb : bs.getD k 0 < 256) (hset : bs.getD k 0 &&& flag ≠ 0)
    (ht : ¬ m.jif m.ti + t < m.jif (m.ti + 1))
    (hb1 : bs.getD (k + 1) 0 < 256) (hset1 : bs.getD (k + 1) 0 &&& flag ≠ 0)
    (ht2 : m.jif m.ti + t < m.jif (m.ti + 2)) :
    ∃ m', busy t op flag (f + 2) m = some (-ETIMEDOUT, m') ∧
      m'.ti = m.ti + 3 ∧ m'.reg.testBit 2 = true := by
  rw [busy_eq_busyLoop]
  obtain ⟨m2, h, c1, c2, c3, c4, c5, c6, c7⟩ :=
    busyLoop_poll_continue (m.jif m.ti + t) op flag (f + 1) k bs { m with ti := m.ti + 1 }
      hreg hcs hop hdev hdi hb hset ht
  rw [h]
  obtain ⟨m', h', d1, d2, d3, d4, d5, d6, d7⟩ :=
    busyLoop_poll_timeout (m.jif m.ti + t) op flag f (k + 1) bs m2
      c1 c2 hop (by rw [c3]; exact hdev) c4 hb1 hset1
      (by rw [c6, c5]; exact ht2)
  refine ⟨m', h', ?_, d2⟩
  rw [d5, c5]

/-- Whenever the busy-wait loop returns, the device is deselected and
the result is 0 or `-ETIMEDOUT`. -/
lemma busyLoop_final_cs (endT op flag : Nat) :
    ∀ f (m : M) (r : Int) (m' : M), busyLoop endT op flag f m = some (r, m') →
      m'.reg.testBit 2 = true ∧ (r = 0 ∨ r = -ETIMEDOUT) := by
  intro f
  induction f with
  | zero =>
    intro m r m' h
    exact absurd h (by simp [busyLoop])
  | succ f ih =>
    intro m r m' h
    have hstep : busyLoop endT op flag (f + 1) m
        = if ((read_status op m).1 &&& flag != 0) = true then
            (if endT < (nowObs (read_status op m).2).1
              then some (-ETIMEDOUT, (nowObs (read_status op m).2).2)
              else busyLoop endT op flag f (nowObs (read_status op m).2).2)
          else some (0, (read_status op m).2) := rfl
    rw [hstep] at h
    by_cases hflag : ((read_status op m).1 &&& flag != 0) = true
    · rw [if_pos hflag] at h
      by_cases htime : endT < (nowObs (read_status op m).2).1
      · rw [if_pos htime] at h
        have h1 : m' = (nowObs (read_status op m).2).2 := by
          cases h
          rfl
        have h2 : r = -ETIMEDOUT := by
          cases h
          rfl
        refine ⟨?_, Or.inr h2⟩
        rw [h1]
        exact read_status_final_cs op m
      · rw [if_neg htime] at h
        exact ih _ r m' h
    · rw [if_neg hflag] at h
      have h1 : m' = (read_status op m).2 := by
        cases h
        rfl
      have h2 : r = 0 := by
        cases h
        rfl
      refine ⟨?_, Or.inl h2⟩
      rw [h1]
      exact read_status_final_cs op m

lemma busy_final_cs (t op flag fuel : Nat) (m : M) (r : Int) (m' : M)
    (h : busy t op flag fuel m = some (r, m')) :
    m'.reg.testBit 2 = true ∧ (r = 0 ∨ r = -ETIMEDOUT) :=
  busyLoop_final_cs (m.jif m.ti + t) op flag fuel { m with ti := m.ti + 1 } r m' h

/-! ### Outbound payloads -/

lemma foldl_send_spec (data : List Nat) : ∀ m : M, m.reg < 256 →
    m.reg.testBit 2 = false → m.reg.testBit 3 = false →
    ((data.foldl (fun s b => spi_bitbang_send b s) m).reg < 256 ∧
     (data.foldl (fun s b => spi_bitbang_send b s) m).reg.testBit 2 = false ∧
     (data.foldl (fun s b => spi_bitbang_send b s) m).reg.testBit 3 = false ∧
     (data.foldl (fun s b => spi_bitbang_send b s) m).sent = m.sent ++ msbList data ∧
     (data.foldl (fun s b => spi_bitbang_send b s) m).di = m.di ∧
     (data.foldl (fun s b => spi_bitbang_send b s) m).misoReg = m.misoReg ∧
     ∃ tr, (data.foldl (fun s b => spi_bitbang_send b s) m).trace = m.trace ++ tr) := by
  induction data with
  | nil =>
    intro m h1 h2 h3
    exact ⟨h1, h2, h3, by simp [msbList], rfl, rfl, [], by simp⟩
  | cons b bs ih =>
    intro m h1 h2 h3
    obtain ⟨p1, p2, p3, p4, p5, p6, t1, p7⟩ := spi_bitbang_send_spec b m h1 h2 h3
    obtain ⟨q1, q2, q3, q4, q5, q6, t2, q7⟩ := ih (spi_bitbang_send b m) p1 p2 p3
    refine ⟨q1, q2, q3, ?_, ?_, ?_, ?_⟩
    · show (bs.foldl (fun s b => spi_bitbang_send b s) (spi_bitbang_send b m)).sent
        = m.sent ++ msbList (b :: bs)
      rw [q4, p4, msbList]
      simp [msbList]
    · show (bs.foldl (fun s b => spi_bitbang_send b s) (spi_bitbang_send b m)).di = m.di
      rw [q5, p5]
    · show (bs.foldl (fun s b => spi_bitbang_send b s) (spi_bitbang_send b m)).misoReg
        = m.misoReg
      rw [q6, p6]
    · refine ⟨t1 ++ t2, ?_⟩
      show (bs.foldl (fun s b => spi_bitbang_send b s) (spi_bitbang_send b m)).trace
        = m.trace ++ (t1 ++ t2)
      rw [q7, p7]
      simp

lemma write_data_spec (data : List Nat) (m : M) (h1 : m.reg < 256)
    (h2 : m.reg.testBit 2 = false) :
    (write_data data m).reg < 256 ∧
    (write_data data m).reg.testBit 2 = false ∧
    (write_data data m).reg.testBit 3 = false ∧
    (write_data data m).sent = m.sent ++ msbList data ∧
    (write_data data m).di = m.di ∧
    (write_data data m).misoReg = m.misoReg ∧
    ∃ tr, (write_data data m).trace = m.trace ++ tr := by
  have e_reg : (enable (compl8 MISO_MODE) m).reg = m.reg &&& 247 := by rw [enable_lo_spec]
  have e_sent : (enable (compl8 MISO_MODE) m).sent = m.sent := by rw [enable_lo_spec]
  have e_di : (enable (compl8 MISO_MODE) m).di = m.di := by rw [enable_lo_spec]
  have e_miso : (enable (compl8 MISO_MODE) m).misoReg = m.misoReg := by rw [enable_lo_spec]
  have e_tr : (enable (compl8 MISO_MODE) m).trace = m.trace ++ [m.reg &&& 247] := by
    rw [enable_lo_spec]
  obtain ⟨p1, p2, p3, p4, p5, p6, t1, p7⟩ :=
    foldl_send_spec data (enable (compl8 MISO_MODE) m)
      (by rw [e_reg]; exact and_le_lt _ _ _ h1)
      (by rw [e_reg, tb_and_t _ _ _ (by decide)]; exact h2)
      (by rw [e_reg]; exact tb_and_f _ _ _ (by decide))
  rw [write_data]
  refine ⟨p1, p2, p3, ?_, ?_, ?_, ?_⟩
  · rw [p4, e_sent]
  · rw [p5, e_di]
  · rw [p6, e_miso]
  · refine ⟨[m.reg &&& 247] ++ t1, ?_⟩
    rw [p7, e_tr]
    simp

/-! ### Inbound payloads and transaction epilogues -/

lemma readLoop_length (n : Nat) : ∀ m : M, (readLoop n m).1.length = n := by
  induction n with
  | zero => intro m; rfl
  | succ n ih =>
    intro m
    show ((spi_bitbang_read m).1 :: (readLoop n (spi_bitbang_read m).2).1).length = n + 1
    simp [ih]

lemma cs_hi_final (m : M) : (cs CS_ENABLE m).reg.testBit 2 = true := by
  rw [cs_hi_eq, wrReg_reg]
  exact tb_or_t _ _ _ (by decide)

lemma read_reg_final_cs (op len : Nat) (m : M) :
    (spi_flash_nor_read_reg op len m).2.2.reg.testBit 2 = true :=
  cs_hi_final _

lemma read_final_cs (ro a len : Nat) (m : M) :
    (spi_flash_nor_read ro a len m).2.2.reg.testBit 2 = true :=
  cs_hi_final _

lemma erase_final_cs (eo offs f1 f2 f3 : Nat) (m : M) (r : Int) (m' : M)
    (h : spi_flash_nor_erase eo offs f1 f2 f3 m = some (r, m')) :
    m'.reg.testBit 2 = true := by
  rw [spi_flash_nor_erase] at h
  rcases h1 : busy TIMEOUT_MS READ_STATUS_REGISTER WORK_IN_PROGRESS f1
      (cs CS_ENABLE (write_command WRITE_ENABLE m)) with _ | ⟨r1, m2⟩
  · rw [h1] at h
    exact Option.noConfusion h
  rw [h1] at h
  dsimp only at h
  by_cases hr1 : (r1 != 0) = true
  · rw [if_pos hr1] at h
    cases h
    exact (busy_final_cs _ _ _ _ _ _ _ h1).1
  rw [if_neg hr1] at h
  rcases h2 : busy TIMEOUT_ERASE_MS READ_FLAG_STATUS_REGISTER ERASE_BUSY f2
      (cs CS_ENABLE (write_address (offs % 2 ^ 32) (write_command eo m2))) with _ | ⟨r2, m3⟩
  · rw [h2] at h
    exact Option.noConfusion h
  rw [h2] at h
  dsimp only at h
  by_cases hr2 : (r2 != 0) = true
  · rw [if_pos hr2] at h
    cases h
    exact (busy_final_cs _ _ _ _ _ _ _ h2).1
  rw [if_neg hr2] at h
  rcases h3 : busy TIMEOUT_ERASE_MS READ_STATUS_REGISTER WORK_IN_PROGRESS f3 m3
      with _ | ⟨r3, m4⟩
  · rw [h3] at h
    exact Option.noConfusion h
  rw [h3] at h
  dsimp only at h
  by_cases hr3 : (r3 != 0) = true
  · rw [if_pos hr3] at h
    cases h
    exact (busy_final_cs _ _ _ _ _ _ _ h3).1
  rw [if_neg hr3] at h
  cases h
  exact read_status_final_cs _ _

lemma write_final_cs (po a : Nat) (buf : List Nat) (f1 f2 : Nat) (m : M)
    (r : Int) (m' : M)
    (h : spi_flash_nor_write po a buf f1 f2 m = some (r, m')) :
    m'.reg.testBit 2 = true := by
  rw [spi_flash_nor_write] at h
  rcases h1 : busy TIMEOUT_MS READ_STATUS_REGISTER WORK_IN_PROGRESS f1
      (cs CS_ENABLE (write_command WRITE_ENABLE m)) with _ | ⟨r1, m2⟩
  · rw [h1] at h
    exact Option.noConfusion h
  rw [h1] at h
  dsimp only at h
  by_cases hr1 : (r1 != 0) = true
  · rw [if_pos hr1] at h
    cases h
    exact (busy_final_cs _ _ _ _ _ _ _ h1).1
  rw [if_neg hr1] at h
  rcases h2 : busy TIMEOUT_MS READ_STATUS_REGISTER WORK_IN_PROGRESS f2
      (cs CS_ENABLE (write_data buf (write_address (a % 2 ^ 32) (write_command po m2))))
      with _ | ⟨r2, m3⟩
  · rw [h2] at h
    exact Option.noConfusion h
  rw [h2] at h
  dsimp only at h
  by_cases hr2 : (r2 != 0) = true
  · rw [if_pos hr2] at h
    cases h
    exact (busy_final_cs _ _ _ _ _ _ _ h2).1
  rw [if_neg hr2] at h
  by_cases hp : ((read_status READ_FLAG_STATUS_REGISTER m3).1 &&& PROGRAM_ERR != 0) = true
  · rw [if_pos hp] at h
    cases h
    exact read_status_final_cs _ _
  · rw [if_neg hp] at h
    cases h
    exact read_status_final_cs _ _

lemma write_reg_final_cs (op : Nat) (buf : List Nat) (f1 f2 : Nat) (m : M)
    (r : Int) (m' : M)
    (h : spi_flash_nor_write_reg op buf f1 f2 m = some (r, m')) :
    m'.reg.testBit 2 = true := by
  rw [spi_flash_nor_write_reg] at h
  rcases h1 : busy TIMEOUT_MS READ_STATUS_REGISTER WORK_IN_PROGRESS f1
      (cs CS_ENABLE (write_command WRITE_ENABLE m)) with _ | ⟨r1, m2⟩
  · rw [h1] at h
    exact Option.noConfusion h
  rw [h1] at h
  dsimp only at h
  by_cases hr1 : (r1 != 0) = true
  · rw [if_pos hr1] at h
    cases h
    exact (busy_final_cs _ _ _ _ _ _ _ h1).1
  rw [if_neg hr1] at h
  rcases h2 : busy TIMEOUT_MS READ_STATUS_REGISTER WORK_IN_PROGRESS f2
      (cs CS_ENABLE (write_data buf (write_command op m2))) with _ | ⟨r2, m3⟩
  · rw [h2] at h
    exact Option.noConfusion h
  rw [h2] at h
  dsimp only at h
  by_cases hr2 : (r2 != 0) = true
  · rw [if_pos hr2] at h
    cases h
    exact (busy_final_cs _ _ _ _ _ _ _ h2).1
  · rw [if_neg hr2] at h
    cases h
    exact (busy_final_cs _ _ _ _ _ _ _ h2).1

/-! ### Wire-image lengths and lookup -/

lemma msbBits_length (n : Nat) : ∀ c, (msbBits n c).length = n := by
  induction n with
  | zero => intro c; rfl
  | succ n ih => intro c; simp [msbBits, ih]

lemma getD_append_len (l1 l2 : List Nat) (k d : Nat) :
    (l1 ++ l2).getD (l1.length + k) d = l2.getD k d := by
  simp [List.getD, List.getElem?_append_right (by omega : l1.length ≤ l1.length + k)]

/-! ### Chip-select preservation, unconditionally -/

lemma mosi_set_bit2 (b : Bool) (m : M) :
    (mosi_set b m).reg.testBit 2 = m.reg.testBit 2 := by
  cases b
  · rw [mosi_false_eq, wrReg_reg]
    exact tb_and_t _ _ _ (by decide)
  · rw [mosi_true_eq, wrReg_reg]
    exact tb_or_f _ _ _ (by decide)

lemma pulse_bit2 (m : M) : (pulse m).reg.testBit 2 = m.reg.testBit 2 := by
  rw [pulse_eq, wrReg_reg]
  exact pv_testBit2 _

lemma sendLoop_bit2 (n : Nat) : ∀ c (m : M),
    (sendLoop n c m).reg.testBit 2 = m.reg.testBit 2 := by
  induction n with
  | zero => intro c m; rfl
  | succ n ih =>
    intro c m
    show (sendLoop n ((c <<< 1) % 256) (pulse (mosi_set (c &&& 0x80 != 0) m))).reg.testBit 2
        = m.reg.testBit 2
    rw [ih, pulse_bit2, mosi_set_bit2]

lemma send_bit2 (c : Nat) (m : M) :
    (spi_bitbang_send c m).reg.testBit 2 = m.reg.testBit 2 :=
  sendLoop_bit2 8 _ m

lemma recvLoop_bit2 (n : Nat) : ∀ acc (m : M),
    (recvLoop n acc m).2.reg.testBit 2 = m.reg.testBit 2 := by
  induction n with
  | zero => intro acc m; rfl
  | succ n ih =>
    intro acc m
    show (recvLoop n (acc ||| (miso_read (pulse m) <<< n)) (pulse m)).2.reg.testBit 2
        = m.reg.testBit 2
    rw [ih, pulse_bit2]

lemma readLoop_bit2 (n : Nat) : ∀ m : M,
    (readLoop n m).2.reg.testBit 2 = m.reg.testBit 2 := by
  induction n with
  | zero => intro m; rfl
  | succ n ih =>
    intro m
    show (readLoop n (recvLoop 8 0 m).2).2.reg.testBit 2 = m.reg.testBit 2
    rw [ih, recvLoop_bit2]

/-- After `write_command` the chip-select bit is low: the device is
selected for the rest of the transaction, whatever the entry state. -/
lemma write_command_selected (c : Nat) (m : M) :
    (write_command c m).reg.testBit 2 = false := by
  rw [write_command, spi_bitbang_send, sendLoop_bit2, cs_lo_eq, wrReg_reg]
  exact tb_and_f _ _ _ (by decide)

lemma write_address_bit2 (a : Nat) (m : M) :
    (write_address a m).reg.testBit 2 = m.reg.testBit 2 := by
  rw [write_address, send_bit2, send_bit2, send_bit2]

lemma foldl_send_bit2 (data : List Nat) : ∀ m : M,
    (data.foldl (fun s b => spi_bitbang_send b s) m).reg.testBit 2 = m.reg.testBit 2 := by
  induction data with
  | nil => intro m; rfl
  | cons b bs ih =>
    intro m
    show (bs.foldl (fun s b => spi_bitbang_send b s) (spi_bitbang_send b m)).reg.testBit 2
        = m.reg.testBit 2
    rw [ih, send_bit2]

lemma write_data_bit2 (data : List Nat) (m : M) :
    (write_data data m).reg.testBit 2 = m.reg.testBit 2 := by
  rw [write_data, foldl_send_bit2, enable_lo_eq, wrReg_reg]
  exact tb_and_t _ _ _ (by decide)

lemma read_data_bit2 (len : Nat) (m : M) :
    (read_data len m).2.reg.testBit 2 = m.reg.testBit 2 := by
  rw [read_data, readLoop_bit2, enable_hi_eq, wrReg_reg]
  exact tb_or_f _ _ _ (by decide)

/-! ### The dummy-cycle trace -/

lemma dTrace_rising (n : Nat) : ∀ r, risingCount r (dTrace n r) = n := by
  induction n with
  | zero => intro r; rfl
  | succ n ih =>
    intro r
    show (if !r.testBit 1 && (r &&& 253).testBit 1 then 1 else 0)
        + ((if !(r &&& 253).testBit 1 && ((r &&& 253) ||| 2).testBit 1 then 1 else 0)
          + risingCount ((r &&& 253) ||| 2) (dTrace n ((r &&& 253) ||| 2))) = n + 1
    rw [lo_testBit1, pv_testBit1, ih]
    simp
    omega

lemma dTrace_mem (n : Nat) : ∀ r v, v ∈ dTrace n r →
    v.testBit 2 = r.testBit 2 ∧ v.testBit 3 = r.testBit 3 := by
  induction n with
  | zero => intro r v hv; exact absurd hv (by simp [dTrace])
  | succ n ih =>
    intro r v hv
    rw [dTrace] at hv
    simp only [List.mem_cons] at hv
    rcases hv with hv | hv | hv
    · constructor
      · rw [hv]; exact tb_and_t _ _ _ (by decide)
      · rw [hv]; exact tb_and_t _ _ _ (by decide)
    · constructor
      · rw [hv]; exact pv_testBit2 _
      · rw [hv]; exact pv_testBit3 _
    · obtain ⟨h2, h3⟩ := ih ((r &&& 253) ||| 2) v hv
      constructor
      · rw [h2, pv_testBit2]
      · rw [h3, pv_testBit3]

/-! ### Frame lemmas: one helper touches one bit -/

lemma frame_and_mask (x mask t j : Nat) (hx : x < 256)
    (hbit : ∀ i, i < 8 → i ≠ t → mask.testBit i = true) (hj : j ≠ t) :
    (x &&& mask).testBit j = x.testBit j := by
  rcases lt_or_ge j 8 with h8 | h8
  · exact tb_and_t _ _ _ (hbit j h8 hj)
  · rw [testBit_ge8_false _ _ hx h8, testBit_ge8_false _ _ (and_le_lt _ _ _ hx) h8]

lemma frame_or_pow (x n j : Nat) (hj : j ≠ n) :
    (x ||| 2 ^ n).testBit j = x.testBit j :=
  tb_or_f _ _ _ (Nat.testBit_two_pow_of_ne (fun h => hj h.symm))

lemma mask253_bits : ∀ i, i < 8 → i ≠ 1 → (253 : Nat).testBit i = true := by decide

lemma mask251_bits : ∀ i, i < 8 → i ≠ 2 → (251 : Nat).testBit i = true := by decide

lemma mask247_bits : ∀ i, i < 8 → i ≠ 3 → (247 : Nat).testBit i = true := by decide

lemma mask254_bits : ∀ i, i < 8 → i ≠ 0 → (254 : Nat).testBit i = true := by decide

/-! ### Transaction prefixes: opcode (and address, data) then deselect -/

lemma cs_hi_fields (m : M) :
    (cs CS_ENABLE m).reg = m.reg ||| 4 ∧ (cs CS_ENABLE m).sent = m.sent ∧
    (cs CS_ENABLE m).di = m.di ∧ (cs CS_ENABLE m).misoReg = m.misoReg := by
  rw [cs_hi_spec]
  exact ⟨rfl, rfl, rfl, rfl⟩

lemma wc_cs_spec (c : Nat) (m : M) (h1 : m.reg < 256)
    (h2 : m.reg.testBit 2 = true) (hc : c < 256) :
    (cs CS_ENABLE (write_command c m)).reg < 256 ∧
    (cs CS_ENABLE (write_command c m)).reg.testBit 2 = true ∧
    (cs CS_ENABLE (write_command c m)).sent = m.sent ++ msbBits 8 c ∧
    (cs CS_ENABLE (write_command c m)).di = m.di ∧
    (cs CS_ENABLE (write_command c m)).ti = m.ti ∧
    (cs CS_ENABLE (write_command c m)).jif = m.jif ∧
    (cs CS_ENABLE (write_command c m)).dev = m.dev := by
  obtain ⟨w1, w2, w3, w4, w5, w6, _⟩ := write_command_spec c m h1 h2 hc
  obtain ⟨q1, q2, q3⟩ := quiet_write_command c m
  obtain ⟨cq1, cq2, cq3⟩ := quiet_cs CS_ENABLE (write_command c m)
  obtain ⟨f1, f2, f3, f4⟩ := cs_hi_fields (write_command c m)
  exact ⟨by rw [f1]; exact or_lt_256 _ _ w1 (by norm_num), cs_hi_final _,
    by rw [f2, w4], by rw [f3, w5], by rw [cq1, q1], by rw [cq2, q2], by rw [cq3, q3]⟩

lemma wc_addr_cs_spec (c a : Nat) (m : M) (h1 : m.reg < 256)
    (h2 : m.reg.testBit 2 = true) (hc : c < 256) :
    (cs CS_ENABLE (write_address a (write_command c m))).reg < 256 ∧
    (cs CS_ENABLE (write_address a (write_command c m))).reg.testBit 2 = true ∧
    (cs CS_ENABLE (write_address a (write_command c m))).sent
      = m.sent ++ msbBits 8 c ++ msbBits 8 ((a >>> 16) &&& 0xFF)
        ++ msbBits 8 ((a >>> 8) &&& 0xFF) ++ msbBits 8 (a &&& 0xFF) ∧
    (cs CS_ENABLE (write_address a (write_command c m))).di = m.di ∧
    (cs CS_ENABLE (write_address a (write_command c m))).ti = m.ti ∧
    (cs CS_ENABLE (write_address a (write_command c m))).jif = m.jif ∧
    (cs CS_ENABLE (write_address a (write_command c m))).dev = m.dev := by
  obtain ⟨w1, w2, w3, w4, w5, w6, _⟩ := write_command_spec c m h1 h2 hc
  obtain ⟨a1, a2, a3, a4, a5, a6, _⟩ := write_address_spec a (write_command c m) w1 w2 w3
  obtain ⟨q1, q2, q3⟩ := quiet_write_command c m
  obtain ⟨aq1, aq2, aq3⟩ := quiet_write_address a (write_command c m)
  obtain ⟨cq1, cq2, cq3⟩ := quiet_cs CS_ENABLE (write_address a (write_command c m))
  obtain ⟨f1, f2, f3, f4⟩ := cs_hi_fields (write_address a (write_command c m))
  refine ⟨by rw [f1]; exact or_lt_256 _ _ a1 (by norm_num), cs_hi_final _, ?_,
    by rw [f3, a5, w5], by rw [cq1, aq1, q1], by rw [cq2, aq2, q2], by rw [cq3, aq3, q3]⟩
  rw [f2, a4, w4]

lemma wc_addr_data_cs_spec (c a : Nat) (buf : List Nat) (m : M) (h1 : m.reg < 256)
    (h2 : m.reg.testBit 2 = true) (hc : c < 256) :
    (cs CS_ENABLE (write_data buf (write_address a (write_command c m)))).reg < 256 ∧
    (cs CS_ENABLE (write_data buf (write_address a (write_command c m)))).reg.testBit 2 = true ∧
    (cs CS_ENABLE (write_data buf (write_address a (write_command c m)))).sent
      = m.sent ++ msbBits 8 c ++ msbBits 8 ((a >>> 16) &&& 0xFF)
        ++ msbBits 8 ((a >>> 8) &&& 0xFF) ++ msbBits 8 (a &&& 0xFF) ++ msbList buf ∧
    (cs CS_ENABLE (write_data buf (write_address a (write_command c m)))).di = m.di ∧
    (cs CS_ENABLE (write_data buf (write_address a (write_command c m)))).ti = m.ti ∧
    (cs CS_ENABLE (write_data buf (write_address a (write_command c m)))).jif = m.jif ∧
    (cs CS_ENABLE (write_data buf (write_address a (write_command c m)))).dev = m.dev := by
  obtain ⟨w1, w2, w3, w4, w5, w6, _⟩ := write_command_spec c m h1 h2 hc
  obtain ⟨a1, a2, a3, a4, a5, a6, _⟩ := write_address_spec a (write_command c m) w1 w2 w3
  obtain ⟨d1, d2, d3, d4, d5, d6, _⟩ :=
    write_data_spec buf (write_address a (write_command c m)) a1 a2
  obtain ⟨q1, q2, q3⟩ := quiet_write_command c m
  obtain ⟨aq1, aq2, aq3⟩ := quiet_write_address a (write_command c m)
  obtain ⟨dq1, dq2, dq3⟩ := quiet_write_data buf (write_address a (write_command c m))
  obtain ⟨cq1, cq2, cq3⟩ :=
    quiet_cs CS_ENABLE (write_data buf (write_address a (write_command c m)))
  obtain ⟨f1, f2, f3, f4⟩ :=
    cs_hi_fields (write_data buf (write_address a (write_command c m)))
  refine ⟨by rw [f1]; exact or_lt_256 _ _ d1 (by norm_num), cs_hi_final _, ?_,
    by rw [f3, d5, a5, w5], by rw [cq1, dq1, aq1, q1], by rw [cq2, dq2, aq2, q2],
    by rw [cq3, dq3, aq3, q3]⟩
  rw [f2, d4, a4, w4]

/-! ### Erase scenarios -/

lemma erase_happy (r eo offs b0 b1 b2 b3 : Nat) (js : List Nat)
    (hr : r < 256) (hrc : r.testBit 2 = true) (heo : eo < 256) (hoffs : offs < 2 ^ 32)
    (hb0 : b0 < 256) (hb1 : b1 < 256) (hb2 : b2 < 256) (hb3 : b3 < 256)
    (h0 : b0 &&& WORK_IN_PROGRESS = 0) (h1 : b1 &&& ERASE_BUSY = 0)
    (h2 : b2 &&& WORK_IN_PROGRESS = 0) :
    eraseRes eo offs 1 1 1 (mkM r [b0, b1, b2, b3] js)
      = some (Int.ofNat (b3 &&& ERASE_ERR)) ∧
    eraseSent eo offs 1 1 1 (mkM r [b0, b1, b2, b3] js)
      = some (msbBits 8 WRITE_ENABLE ++ msbBits 8 READ_STATUS_REGISTER ++ msbBits 8 eo
          ++ msbBits 8 ((offs >>> 16) &&& 0xFF) ++ msbBits 8 ((offs >>> 8) &&& 0xFF)
          ++ msbBits 8 (offs &&& 0xFF)
          ++ msbBits 8 READ_FLAG_STATUS_REGISTER ++ msbBits 8 READ_STATUS_REGISTER
          ++ msbBits 8 READ_FLAG_STATUS_REGISTER) := by
  set s0 := mkM r [b0, b1, b2, b3] js with hs0
  have hmod : offs % 2 ^ 32 = offs := Nat.mod_eq_of_lt hoffs
  obtain ⟨A1, A2, A3, A4, A5, A6, A7⟩ := wc_cs_spec WRITE_ENABLE s0 hr hrc (by decide)
  obtain ⟨m2, hB, B1, B2, B3, B4, B5, B6, B7⟩ :=
    busy_poll_clear TIMEOUT_MS READ_STATUS_REGISTER WORK_IN_PROGRESS 0 0 [b0, b1, b2, b3]
      (cs CS_ENABLE (write_command WRITE_ENABLE s0)) A1 A2 (by decide)
      (by rw [A7, hs0]; rfl) (by rw [A4, hs0]; rfl) (by simpa using hb0) (by simpa using h0)
  have hB1 : busy TIMEOUT_MS READ_STATUS_REGISTER WORK_IN_PROGRESS 1
      (cs CS_ENABLE (write_command WRITE_ENABLE s0)) = some (0, m2) := hB
  obtain ⟨C1, C2, C3, C4, C5, C6, C7⟩ := wc_addr_cs_spec eo offs m2 B1 B2 heo
  obtain ⟨m4, hD, D1, D2, D3, D4, D5, D6, D7⟩ :=
    busy_poll_clear TIMEOUT_ERASE_MS READ_FLAG_STATUS_REGISTER ERASE_BUSY 0 1 [b0, b1, b2, b3]
      (cs CS_ENABLE (write_address offs (write_command eo m2))) C1 C2 (by decide)
      (by rw [C7, B3, A7, hs0]; rfl) (by rw [C4, B4]; try rfl) (by simpa using hb1) (by simpa using h1)
  have hD1 : busy TIMEOUT_ERASE_MS READ_FLAG_STATUS_REGISTER ERASE_BUSY 1
      (cs CS_ENABLE (write_address offs (write_command eo m2))) = some (0, m4) := hD
  obtain ⟨m5, hF, F1, F2, F3, F4, F5, F6, F7⟩ :=
    busy_poll_clear TIMEOUT_ERASE_MS READ_STATUS_REGISTER WORK_IN_PROGRESS 0 2 [b0, b1, b2, b3]
      m4 D1 D2 (by decide)
      (by rw [D3, C7, B3, A7, hs0]; rfl) (by rw [D4]; try norm_num) (by simpa using hb2) (by simpa using h2)
  have hF1 : busy TIMEOUT_ERASE_MS READ_STATUS_REGISTER WORK_IN_PROGRESS 1 m4
      = some (0, m5) := hF
  obtain ⟨E1, E2, E3, E4, E5, E6, E7, E8, _⟩ :=
    read_status_spec READ_FLAG_STATUS_REGISTER m5 F1 F2 (by decide)
  have hdi5 : m5.di = 8 * 3 := by rw [F4]; try norm_num
  have hdev5 : m5.dev = devOfBytes [b0, b1, b2, b3] := by rw [F3, D3, C7, B3, A7, hs0]; rfl
  have hval : (read_status READ_FLAG_STATUS_REGISTER m5).1 = b3 := by
    rw [E1, hdev5, hdi5, recvPure_devOfBytes _ _ (by simpa using hb3)]
    simp
  have key : spi_flash_nor_erase eo offs 1 1 1 s0
      = some (Int.ofNat (b3 &&& ERASE_ERR), (read_status READ_FLAG_STATUS_REGISTER m5).2) := by
    rw [spi_flash_nor_erase]
    dsimp only
    rw [hmod, hB1]
    dsimp only
    rw [if_neg (by decide : ¬ (((0 : Int) != 0) = true))]
    rw [hD1]
    dsimp only
    rw [if_neg (by decide : ¬ (((0 : Int) != 0) = true))]
    rw [hF1]
    dsimp only
    rw [if_neg (by decide : ¬ (((0 : Int) != 0) = true))]
    rw [hval]
  constructor
  · rw [eraseRes, key]
    rfl
  · rw [eraseSent, key]
    show some ((read_status READ_FLAG_STATUS_REGISTER m5).2.sent) = _
    rw [E4, F7, D7, C3, B7, A3]
    have hsent0 : s0.sent = [] := rfl
    rw [hsent0]
    simp [List.append_assoc]

lemma erase_timeout1 (r eo offs b0 t0 t1 f2 f3 : Nat)
    (hr : r < 256) (hrc : r.testBit 2 = true)
    (hb0 : b0 < 256) (hset : b0 &&& WORK_IN_PROGRESS ≠ 0)
    (ht : t0 + TIMEOUT_MS < t1) :
    eraseRes eo offs 1 f2 f3 (mkM r [b0] [t0, t1]) = some (-ETIMEDOUT) := by
  set s0 := mkM r [b0] [t0, t1] with hs0
  obtain ⟨A1, A2, A3, A4, A5, A6, A7⟩ := wc_cs_spec WRITE_ENABLE s0 hr hrc (by decide)
  have hjif : (cs CS_ENABLE (write_command WRITE_ENABLE s0)).jif
      = fun i => [t0, t1].getD i 0 := by rw [A6, hs0]; rfl
  have hti : (cs CS_ENABLE (write_command WRITE_ENABLE s0)).ti = 0 := by rw [A5, hs0]; rfl
  obtain ⟨m2, hB, _, _, _, _, _, _, _⟩ :=
    busy_poll_timeout TIMEOUT_MS READ_STATUS_REGISTER WORK_IN_PROGRESS 0 0 [b0]
      (cs CS_ENABLE (write_command WRITE_ENABLE s0)) A1 A2 (by decide)
      (by rw [A7, hs0]; rfl) (by rw [A4, hs0]; rfl) (by simpa using hb0)
      (by simpa using hset) (by rw [hjif, hti]; simpa using ht)
  have hB1 : busy TIMEOUT_MS READ_STATUS_REGISTER WORK_IN_PROGRESS 1
      (cs CS_ENABLE (write_command WRITE_ENABLE s0)) = some (-ETIMEDOUT, m2) := hB
  have key : spi_flash_nor_erase eo offs 1 f2 f3 s0 = some (-ETIMEDOUT, m2) := by
    rw [spi_flash_nor_erase]
    dsimp only
    rw [hB1]
    dsimp only
    rw [if_pos (by decide : (((-ETIMEDOUT : Int)) != 0) = true)]
  rw [eraseRes, key]
  rfl

lemma erase_wait1_boundary (r eo offs b0 b1 b2 b3 b4 t0 t1 : Nat)
    (hr : r < 256) (hrc : r.testBit 2 = true) (heo : eo < 256) (hoffs : offs < 2 ^ 32)
    (hb0 : b0 < 256) (hb1 : b1 < 256) (hb2 : b2 < 256) (hb3 : b3 < 256) (hb4 : b4 < 256)
    (hset : b0 &&& WORK_IN_PROGRESS ≠ 0) (ht : ¬ t0 + TIMEOUT_MS < t1)
    (h1 : b1 &&& WORK_IN_PROGRESS = 0) (h2 : b2 &&& ERASE_BUSY = 0)
    (h3 : b3 &&& WORK_IN_PROGRESS = 0) :
    eraseRes eo offs 2 1 1 (mkM r [b0, b1, b2, b3, b4] [t0, t1])
      = some (Int.ofNat (b4 &&& ERASE_ERR)) := by
  set s0 := mkM r [b0, b1, b2, b3, b4] [t0, t1] with hs0
  have hmod : offs % 2 ^ 32 = offs := Nat.mod_eq_of_lt hoffs
  obtain ⟨A1, A2, A3, A4, A5, A6, A7⟩ := wc_cs_spec WRITE_ENABLE s0 hr hrc (by decide)
  have hjif : (cs CS_ENABLE (write_command WRITE_ENABLE s0)).jif
      = fun i => [t0, t1].getD i 0 := by rw [A6, hs0]; rfl
  have hti : (cs CS_ENABLE (write_command WRITE_ENABLE s0)).ti = 0 := by rw [A5, hs0]; rfl
  obtain ⟨m2, hB, B1, B2, B3, B4, B5, B6, B7⟩ :=
    busy_second_clear TIMEOUT_MS READ_STATUS_REGISTER WORK_IN_PROGRESS 0 0 [b0, b1, b2, b3, b4]
      (cs CS_ENABLE (write_command WRITE_ENABLE s0)) A1 A2 (by decide)
      (by rw [A7, hs0]; rfl) (by rw [A4, hs0]; rfl) (by simpa using hb0)
      (by simpa using hset) (by rw [hjif, hti]; simpa using ht)
      (by simpa using hb1) (by simpa using h1)
  have hB1 : busy TIMEOUT_MS READ_STATUS_REGISTER WORK_IN_PROGRESS 2
      (cs CS_ENABLE (write_command WRITE_ENABLE s0)) = some (0, m2) := hB
  obtain ⟨C1, C2, C3, C4, C5, C6, C7⟩ := wc_addr_cs_spec eo offs m2 B1 B2 heo
  obtain ⟨m4, hD, D1, D2, D3, D4, D5, D6, D7⟩ :=
    busy_poll_clear TIMEOUT_ERASE_MS READ_FLAG_STATUS_REGISTER ERASE_BUSY 0 2
      [b0, b1, b2, b3, b4]
      (cs CS_ENABLE (write_address offs (write_command eo m2))) C1 C2 (by decide)
      (by rw [C7, B3, A7, hs0]; rfl) (by rw [C4, B4]; try rfl) (by simpa using hb2)
      (by simpa using h2)
  have hD1 : busy TIMEOUT_ERASE_MS READ_FLAG_STATUS_REGISTER ERASE_BUSY 1
      (cs CS_ENABLE (write_address offs (write_command eo m2))) = some (0, m4) := hD
  obtain ⟨m5, hF, F1, F2, F3, F4, F5, F6, F7⟩ :=
    busy_poll_clear TIMEOUT_ERASE_MS READ_STATUS_REGISTER WORK_IN_PROGRESS 0 3
      [b0, b1, b2, b3, b4] m4 D1 D2 (by decide)
      (by rw [D3, C7, B3, A7, hs0]; rfl) (by rw [D4]; try norm_num) (by simpa using hb3)
      (by simpa using h3)
  have hF1 : busy TIMEOUT_ERASE_MS READ_STATUS_REGISTER WORK_IN_PROGRESS 1 m4
      = some (0, m5) := hF
  obtain ⟨E1, E2, E3, E4, E5, E6, E7, E8, _⟩ :=
    read_status_spec READ_FLAG_STATUS_REGISTER m5 F1 F2 (by decide)
  have hdi5 : m5.di = 8 * 4 := by rw [F4]; try norm_num
  have hdev5 : m5.dev = devOfBytes [b0, b1, b2, b3, b4] := by
    rw [F3, D3, C7, B3, A7, hs0]; rfl
  have hval : (read_status READ_FLAG_STATUS_REGISTER m5).1 = b4 := by
    rw [E1, hdev5, hdi5, recvPure_devOfBytes _ _ (by simpa using hb4)]
    simp
  have key : spi_flash_nor_erase eo offs 2 1 1 s0
      = some (Int.ofNat (b4 &&& ERASE_ERR), (read_status READ_FLAG_STATUS_REGISTER m5).2) := by
    rw [spi_flash_nor_erase]
    dsimp only
    rw [hmod, hB1]
    dsimp only
    rw [if_neg (by decide : ¬ (((0 : Int) != 0) = true))]
    rw [hD1]
    dsimp only
    rw [if_neg (by decide : ¬ (((0 : Int) != 0) = true))]
    rw [hF1]
    dsimp only
    rw [if_neg (by decide : ¬ (((0 : Int) != 0) = true))]
    rw [hval]
  rw [eraseRes, key]
  rfl

lemma erase_timeout2 (r eo offs b0 b1 t0 t1 t2 f3 : Nat)
    (hr : r < 256) (hrc : r.testBit 2 = true) (heo : eo < 256) (hoffs : offs < 2 ^ 32)
    (hb0 : b0 < 256) (hb1 : b1 < 256)
    (h0 : b0 &&& WORK_IN_PROGRESS = 0) (hset : b1 &&& ERASE_BUSY ≠ 0)
    (ht : t1 + TIMEOUT_ERASE_MS < t2) :
    eraseRes eo offs 1 1 f3 (mkM r [b0, b1] [t0, t1, t2]) = some (-ETIMEDOUT) := by
  set s0 := mkM r [b0, b1] [t0, t1, t2] with hs0
  have hmod : offs % 2 ^ 32 = offs := Nat.mod_eq_of_lt hoffs
  obtain ⟨A1, A2, A3, A4, A5, A6, A7⟩ := wc_cs_spec WRITE_ENABLE s0 hr hrc (by decide)
  obtain ⟨m2, hB, B1, B2, B3, B4, B5, B6, B7⟩ :=
    busy_poll_clear TIMEOUT_MS READ_STATUS_REGISTER WORK_IN_PROGRESS 0 0 [b0, b1]
      (cs CS_ENABLE (write_command WRITE_ENABLE s0)) A1 A2 (by decide)
      (by rw [A7, hs0]; rfl) (by rw [A4, hs0]; rfl) (by simpa using hb0) (by simpa using h0)
  have hB1 : busy TIMEOUT_MS READ_STATUS_REGISTER WORK_IN_PROGRESS 1
      (cs CS_ENABLE (write_command WRITE_ENABLE s0)) = some (0, m2) := hB
  obtain ⟨C1, C2, C3, C4, C5, C6, C7⟩ := wc_addr_cs_spec eo offs m2 B1 B2 heo
  have hjif : (cs CS_ENABLE (write_address offs (write_command eo m2))).jif
      = fun i => [t0, t1, t2].getD i 0 := by rw [C6, B6, A6, hs0]; rfl
  have hti : (cs CS_ENABLE (write_address offs (write_command eo m2))).ti = 1 := by
    rw [C5, B5, A5, hs0]; rfl
  obtain ⟨m4, hD, _, _, _, _, _, _, _⟩ :=
    busy_poll_timeout TIMEOUT_ERASE_MS READ_FLAG_STATUS_REGISTER ERASE_BUSY 0 1 [b0, b1]
      (cs CS_ENABLE (write_address offs (write_command eo m2))) C1 C2 (by decide)
      (by rw [C7, B3, A7, hs0]; rfl) (by rw [C4, B4]; try rfl) (by simpa using hb1)
      (by simpa using hset) (by rw [hjif, hti]; simpa using ht)
  have hD1 : busy TIMEOUT_ERASE_MS READ_FLAG_STATUS_REGISTER ERASE_BUSY 1
      (cs CS_ENABLE (write_address offs (write_command eo m2))) = some (-ETIMEDOUT, m4) := hD
  have key : spi_flash_nor_erase eo offs 1 1 f3 s0 = some (-ETIMEDOUT, m4) := by
    rw [spi_flash_nor_erase]
    dsimp only
    rw [hmod, hB1]
    dsimp only
    rw [if_neg (by decide : ¬ (((0 : Int) != 0) = true))]
    rw [hD1]
    dsimp only
    rw [if_pos (by decide : (((-ETIMEDOUT : Int)) != 0) = true)]
  rw [eraseRes, key]
  rfl

lemma erase_timeout3 (r eo offs b0 b1 b2 t0 t1 t2 t3 : Nat)
    (hr : r < 256) (hrc : r.testBit 2 = true) (heo : eo < 256) (hoffs : offs < 2 ^ 32)
    (hb0 : b0 < 256) (hb1 : b1 < 256) (hb2 : b2 < 256)
    (h0 : b0 &&& WORK_IN_PROGRESS = 0) (h1 : b1 &&& ERASE_BUSY = 0)
    (hset : b2 &&& WORK_IN_PROGRESS ≠ 0) (ht : t2 + TIMEOUT_ERASE_MS < t3) :
    eraseRes eo offs 1 1 1 (mkM r [b0, b1, b2] [t0, t1, t2, t3]) = some (-ETIMEDOUT) := by
  set s0 := mkM r [b0, b1, b2] [t0, t1, t2, t3] with hs0
  have hmod : offs % 2 ^ 32 = offs := Nat.mod_eq_of_lt hoffs
  obtain ⟨A1, A2, A3, A4, A5, A6, A7⟩ := wc_cs_spec WRITE_ENABLE s0 hr hrc (by decide)
  obtain ⟨m2, hB, B1, B2, B3, B4, B5, B6, B7⟩ :=
    busy_poll_clear TIMEOUT_MS READ_STATUS_REGISTER WORK_IN_PROGRESS 0 0 [b0, b1, b2]
      (cs CS_ENABLE (write_command WRITE_ENABLE s0)) A1 A2 (by decide)
      (by rw [A7, hs0]; rfl) (by rw [A4, hs0]; rfl) (by simpa using hb0) (by simpa using h0)
  have hB1 : busy TIMEOUT_MS READ_STATUS_REGISTER WORK_IN_PROGRESS 1
      (cs CS_ENABLE (write_command WRITE_ENABLE s0)) = some (0, m2) := hB
  obtain ⟨C1, C2, C3, C4, C5, C6, C7⟩ := wc_addr_cs_spec eo offs m2 B1 B2 heo
  obtain ⟨m4, hD, D1, D2, D3, D4, D5, D6, D7⟩ :=
    busy_poll_clear TIMEOUT_ERASE_MS READ_FLAG_STATUS_REGISTER ERASE_BUSY 0 1 [b0, b1, b2]
      (cs CS_ENABLE (write_address offs (write_command eo m2))) C1 C2 (by decide)
      (by rw [C7, B3, A7, hs0]; rfl) (by rw [C4, B4]; try rfl) (by simpa using hb1)
      (by simpa using h1)
  have hD1 : busy TIMEOUT_ERASE_MS READ_FLAG_STATUS_REGISTER ERASE_BUSY 1
      (cs CS_ENABLE (write_address offs (write_command eo m2))) = some (0, m4) := hD
  have hjif : m4.jif = fun i => [t0, t1, t2, t3].getD i 0 := by rw [D6, C6, B6, A6, hs0]; rfl
  have hti : m4.ti = 2 := by rw [D5, C5, B5, A5, hs0]; rfl
  obtain ⟨m5, hF, _, _, _, _, _, _, _⟩ :=
    busy_poll_timeout TIMEOUT_ERASE_MS READ_STATUS_REGISTER WORK_IN_PROGRESS 0 2 [b0, b1, b2]
      m4 D1 D2 (by decide)
      (by rw [D3, C7, B3, A7, hs0]; rfl) (by rw [D4]; try norm_num) (by simpa using hb2)
      (by simpa using hset) (by rw [hjif, hti]; simpa using ht)
  have hF1 : busy TIMEOUT_ERASE_MS READ_STATUS_REGISTER WORK_IN_PROGRESS 1 m4
      = some (-ETIMEDOUT, m5) := hF
  have key : spi_flash_nor_erase eo offs 1 1 1 s0 = some (-ETIMEDOUT, m5) := by
    rw [spi_flash_nor_erase]
    dsimp only
    rw [hmod, hB1]
    dsimp only
    rw [if_neg (by decide : ¬ (((0 : Int) != 0) = true))]
    rw [hD1]
    dsimp only
    rw [if_neg (by decide : ¬ (((0 : Int) != 0) = true))]
    rw [hF1]
    dsimp only
    rw [if_pos (by decide : (((-ETIMEDOUT : Int)) != 0) = true)]
  rw [eraseRes, key]
  rfl

/-! ### Data-program scenarios -/

lemma write_happy (r po to_ b0 b1 b2 : Nat) (buf : List Nat) (js : List Nat)
    (hr : r < 256) (hrc : r.testBit 2 = true) (hpo : po < 256) (hto : to_ < 2 ^ 32)
    (hb0 : b0 < 256) (hb1 : b1 < 256) (hb2 : b2 < 256)
    (h0 : b0 &&& WORK_IN_PROGRESS = 0) (h1 : b1 &&& WORK_IN_PROGRESS = 0)
    (h2 : b2 &&& PROGRAM_ERR = 0) :
    writeRes po to_ buf 1 1 (mkM r [b0, b1, b2] js) = some (Int.ofNat buf.length) ∧
    writeSent po to_ buf 1 1 (mkM r [b0, b1, b2] js)
      = some (msbBits 8 WRITE_ENABLE ++ msbBits 8 READ_STATUS_REGISTER ++ msbBits 8 po
          ++ msbBits 8 ((to_ >>> 16) &&& 0xFF) ++ msbBits 8 ((to_ >>> 8) &&& 0xFF)
          ++ msbBits 8 (to_ &&& 0xFF) ++ msbList buf
          ++ msbBits 8 READ_STATUS_REGISTER ++ msbBits 8 READ_FLAG_STATUS_REGISTER) := by
  set s0 := mkM r [b0, b1, b2] js with hs0
  have hmod : to_ % 2 ^ 32 = to_ := Nat.mod_eq_of_lt hto
  obtain ⟨A1, A2, A3, A4, A5, A6, A7⟩ := wc_cs_spec WRITE_ENABLE s0 hr hrc (by decide)
  obtain ⟨m2, hB, B1, B2, B3, B4, B5, B6, B7⟩ :=
    busy_poll_clear TIMEOUT_MS READ_STATUS_REGISTER WORK_IN_PROGRESS 0 0 [b0, b1, b2]
      (cs CS_ENABLE (write_command WRITE_ENABLE s0)) A1 A2 (by decide)
      (by rw [A7, hs0]; rfl) (by rw [A4, hs0]; rfl) (by simpa using hb0) (by simpa using h0)
  have hB1 : busy TIMEOUT_MS READ_STATUS_REGISTER WORK_IN_PROGRESS 1
      (cs CS_ENABLE (write_command WRITE_ENABLE s0)) = some (0, m2) := hB
  obtain ⟨C1, C2, C3, C4, C5, C6, C7⟩ := wc_addr_data_cs_spec po to_ buf m2 B1 B2 hpo
  obtain ⟨m4, hD, D1, D2, D3, D4, D5, D6, D7⟩ :=
    busy_poll_clear TIMEOUT_MS READ_STATUS_REGISTER WORK_IN_PROGRESS 0 1 [b0, b1, b2]
      (cs CS_ENABLE (write_data buf (write_address to_ (write_command po m2)))) C1 C2
      (by decide)
      (by rw [C7, B3, A7, hs0]; rfl) (by rw [C4, B4]; try rfl) (by simpa using hb1)
      (by simpa using h1)
  have hD1 : busy TIMEOUT_MS READ_STATUS_REGISTER WORK_IN_PROGRESS 1
      (cs CS_ENABLE (write_data buf (write_address to_ (write_command po m2))))
      = some (0, m4) := hD
  obtain ⟨E1, E2, E3, E4, E5, E6, E7, E8, _⟩ :=
    read_status_spec READ_FLAG_STATUS_REGISTER m4 D1 D2 (by decide)
  have hdi4 : m4.di = 8 * 2 := by rw [D4]; try norm_num
  have hdev4 : m4.dev = devOfBytes [b0, b1, b2] := by rw [D3, C7, B3, A7, hs0]; rfl
  have hval : (read_status READ_FLAG_STATUS_REGISTER m4).1 = b2 := by
    rw [E1, hdev4, hdi4, recvPure_devOfBytes _ _ (by simpa using hb2)]
    simp
  have key : spi_flash_nor_write po to_ buf 1 1 s0
      = some (Int.ofNat buf.length, (read_status READ_FLAG_STATUS_REGISTER m4).2) := by
    rw [spi_flash_nor_write]
    dsimp only
    rw [hmod, hB1]
    dsimp only
    rw [if_neg (by decide : ¬ (((0 : Int) != 0) = true))]
    rw [hD1]
    dsimp only
    rw [if_neg (by decide : ¬ (((0 : Int) != 0) = true))]
    rw [hval, if_neg (by simp [h2])]
  constructor
  · rw [writeRes, key]
    rfl
  · rw [writeSent, key]
    show some ((read_status READ_FLAG_STATUS_REGISTER m4).2.sent) = _
    rw [E4, D7, C3, B7, A3]
    have hsent0 : s0.sent = [] := rfl
    rw [hsent0]
    simp [List.append_assoc]

lemma write_progerr (r po to_ b0 b1 b2 : Nat) (buf : List Nat) (js : List Nat)
    (hr : r < 256) (hrc : r.testBit 2 = true) (hpo : po < 256) (hto : to_ < 2 ^ 32)
    (hb0 : b0 < 256) (hb1 : b1 < 256) (hb2 : b2 < 256)
    (h0 : b0 &&& WORK_IN_PROGRESS = 0) (h1 : b1 &&& WORK_IN_PROGRESS = 0)
    (h2 : b2 &&& PROGRAM_ERR ≠ 0) :
    writeRes po to_ buf 1 1 (mkM r [b0, b1, b2] js) = some (-EINVAL) := by
  set s0 := mkM r [b0, b1, b2] js with hs0
  have hmod : to_ % 2 ^ 32 = to_ := Nat.mod_eq_of_lt hto
  obtain ⟨A1, A2, A3, A4, A5, A6, A7⟩ := wc_cs_spec WRITE_ENABLE s0 hr hrc (by decide)
  obtain ⟨m2, hB, B1, B2, B3, B4, B5, B6, B7⟩ :=
    busy_poll_clear TIMEOUT_MS READ_STATUS_REGISTER WORK_IN_PROGRESS 0 0 [b0, b1, b2]
      (cs CS_ENABLE (write_command WRITE_ENABLE s0)) A1 A2 (by decide)
      (by rw [A7, hs0]; rfl) (by rw [A4, hs0]; rfl) (by simpa using hb0) (by simpa using h0)
  have hB1 : busy TIMEOUT_MS READ_STATUS_REGISTER WORK_IN_PROGRESS 1
      (cs CS_ENABLE (write_command WRITE_ENABLE s0)) = some (0, m2) := hB
  obtain ⟨C1, C2, C3, C4, C5, C6, C7⟩ := wc_addr_data_cs_spec po to_ buf m2 B1 B2 hpo
  obtain ⟨m4, hD, D1, D2, D3, D4, D5, D6, D7⟩ :=
    busy_poll_clear TIMEOUT_MS READ_STATUS_REGISTER WORK_IN_PROGRESS 0 1 [b0, b1, b2]
      (cs CS_ENABLE (write_data buf (write_address to_ (write_command po m2)))) C1 C2
      (by decide)
      (by rw [C7, B3, A7, hs0]; rfl) (by rw [C4, B4]; try rfl) (by simpa using hb1)
      (by simpa using h1)
  have hD1 : busy TIMEOUT_MS READ_STATUS_REGISTER WORK_IN_PROGRESS 1
      (cs CS_ENABLE (write_data buf (write_address to_ (write_command po m2))))
      = some (0, m4) := hD
  obtain ⟨E1, E2, E3, E4, E5, E6, E7, E8, _⟩ :=
    read_status_spec READ_FLAG_STATUS_REGISTER m4 D1 D2 (by decide)
  have hdi4 : m4.di = 8 * 2 := by rw [D4]; try norm_num
  have hdev4 : m4.dev = devOfBytes [b0, b1, b2] := by rw [D3, C7, B3, A7, hs0]; rfl
  have hval : (read_status READ_FLAG_STATUS_REGISTER m4).1 = b2 := by
    rw [E1, hdev4, hdi4, recvPure_devOfBytes _ _ (by simpa using hb2)]
    simp
  have key : spi_flash_nor_write po to_ buf 1 1 s0
      = some (-EINVAL, (read_status READ_FLAG_STATUS_REGISTER m4).2) := by
    rw [spi_flash_nor_write]
    dsimp only
    rw [hmod, hB1]
    dsimp only
    rw [if_neg (by decide : ¬ (((0 : Int) != 0) = true))]
    rw [hD1]
    dsimp only
    rw [if_neg (by decide : ¬ (((0 : Int) != 0) = true))]
    rw [hval, if_pos (by simpa using h2)]
  rw [writeRes, key]
  rfl

lemma write_timeout1 (r po to_ b0 t0 t1 f2 : Nat) (buf : List Nat)
    (hr : r < 256) (hrc : r.testBit 2 = true)
    (hb0 : b0 < 256) (hset : b0 &&& WORK_IN_PROGRESS ≠ 0)
    (ht : t0 + TIMEOUT_MS < t1) :
    writeRes po to_ buf 1 f2 (mkM r [b0] [t0, t1]) = some (-ETIMEDOUT) := by
  set s0 := mkM r [b0] [t0, t1] with hs0
  obtain ⟨A1, A2, A3, A4, A5, A6, A7⟩ := wc_cs_spec WRITE_ENABLE s0 hr hrc (by decide)
  have hjif : (cs CS_ENABLE (write_command WRITE_ENABLE s0)).jif
      = fun i => [t0, t1].getD i 0 := by rw [A6, hs0]; rfl
  have hti : (cs CS_ENABLE (write_command WRITE_ENABLE s0)).ti = 0 := by rw [A5, hs0]; rfl
  obtain ⟨m2, hB, _, _, _, _, _, _, _⟩ :=
    busy_poll_timeout TIMEOUT_MS READ_STATUS_REGISTER WORK_IN_PROGRESS 0 0 [b0]
      (cs CS_ENABLE (write_command WRITE_ENABLE s0)) A1 A2 (by decide)
      (by rw [A7, hs0]; rfl) (by rw [A4, hs0]; rfl) (by simpa using hb0)
      (by simpa using hset) (by rw [hjif, hti]; simpa using ht)
  have hB1 : busy TIMEOUT_MS READ_STATUS_REGISTER WORK_IN_PROGRESS 1
      (cs CS_ENABLE (write_command WRITE_ENABLE s0)) = some (-ETIMEDOUT, m2) := hB
  have key : spi_flash_nor_write po to_ buf 1 f2 s0 = some (-ETIMEDOUT, m2) := by
    rw [spi_flash_nor_write]
    dsimp only
    rw [hB1]
    dsimp only
    rw [if_pos (by decide : (((-ETIMEDOUT : Int)) != 0) = true)]
  rw [writeRes, key]
  rfl

lemma write_wait1_boundary (r po to_ b0 b1 b2 b3 t0 t1 : Nat) (buf : List Nat)
    (hr : r < 256) (hrc : r.testBit 2 = true) (hpo : po < 256) (hto : to_ < 2 ^ 32)
    (hb0 : b0 < 256) (hb1 : b1 < 256) (hb2 : b2 < 256) (hb3 : b3 < 256)
    (hset : b0 &&& WORK_IN_PROGRESS ≠ 0) (ht : ¬ t0 + TIMEOUT_MS < t1)
    (h1 : b1 &&& WORK_IN_PROGRESS = 0) (h2 : b2 &&& WORK_IN_PROGRESS = 0)
    (h3 : b3 &&& PROGRAM_ERR = 0) :
    writeRes po to_ buf 2 1 (mkM r [b0, b1, b2, b3] [t0, t1])
      = some (Int.ofNat buf.length) := by
  set s0 := mkM r [b0, b1, b2, b3] [t0, t1] with hs0
  have hmod : to_ % 2 ^ 32 = to_ := Nat.mod_eq_of_lt hto
  obtain ⟨A1, A2, A3, A4, A5, A6, A7⟩ := wc_cs_spec WRITE_ENABLE s0 hr hrc (by decide)
  have hjif : (cs CS_ENABLE (write_command WRITE_ENABLE s0)).jif
      = fun i => [t0, t1].getD i 0 := by rw [A6, hs0]; rfl
  have hti : (cs CS_ENABLE (write_command WRITE_ENABLE s0)).ti = 0 := by rw [A5, hs0]; rfl
  obtain ⟨m2, hB, B1, B2, B3, B4, B5, B6, B7⟩ :=
    busy_second_clear TIMEOUT_MS READ_STATUS_REGISTER WORK_IN_PROGRESS 0 0 [b0, b1, b2, b3]
      (cs CS_ENABLE (write_command WRITE_ENABLE s0)) A1 A2 (by decide)
      (by rw [A7, hs0]; rfl) (by rw [A4, hs0]; rfl) (by simpa using hb0)
      (by simpa using hset) (by rw [hjif, hti]; simpa using ht)
      (by simpa using hb1) (by simpa using h1)
  have hB1 : busy TIMEOUT_MS READ_STATUS_REGISTER WORK_IN_PROGRESS 2
      (cs CS_ENABLE (write_command WRITE_ENABLE s0)) = some (0, m2) := hB
  obtain ⟨C1, C2, C3, C4, C5, C6, C7⟩ := wc_addr_data_cs_spec po to_ buf m2 B1 B2 hpo
  obtain ⟨m4, hD, D1, D2, D3, D4, D5, D6, D7⟩ :=
    busy_poll_clear TIMEOUT_MS READ_STATUS_REGISTER WORK_IN_PROGRESS 0 2 [b0, b1, b2, b3]
      (cs CS_ENABLE (write_data buf (write_address to_ (write_command po m2)))) C1 C2
      (by decide)
      (by rw [C7, B3, A7, hs0]; rfl) (by rw [C4, B4]; try rfl) (by simpa using hb2)
      (by simpa using h2)
  have hD1 : busy TIMEOUT_MS READ_STATUS_REGISTER WORK_IN_PROGRESS 1
      (cs CS_ENABLE (write_data buf (write_address to_ (write_command po m2))))
      = some (0, m4) := hD
  obtain ⟨E1, E2, E3, E4, E5, E6, E7, E8, _⟩ :=
    read_status_spec READ_FLAG_STATUS_REGISTER m4 D1 D2 (by decide)
  have hdi4 : m4.di = 8 * 3 := by rw [D4]; try norm_num
  have hdev4 : m4.dev = devOfBytes [b0, b1, b2, b3] := by rw [D3, C7, B3, A7, hs0]; rfl
  have hval : (read_status READ_FLAG_STATUS_REGISTER m4).1 = b3 := by
    rw [E1, hdev4, hdi4, recvPure_devOfBytes _ _ (by simpa using hb3)]
    simp
  have key : spi_flash_nor_write po to_ buf 2 1 s0
      = some (Int.ofNat buf.length, (read_status READ_FLAG_STATUS_REGISTER m4).2) := by
    rw [spi_flash_nor_write]
    dsimp only
    rw [hmod, hB1]
    dsimp only
    rw [if_neg (by decide : ¬ (((0 : Int) != 0) = true))]
    rw [hD1]
    dsimp only
    rw [if_neg (by decide : ¬ (((0 : Int) != 0) = true))]
    rw [hval, if_neg (by simp [h3])]
  rw [writeRes, key]
  rfl

lemma write_timeout2 (r po to_ b0 b1 t0 t1 t2 : Nat) (buf : List Nat)
    (hr : r < 256) (hrc : r.testBit 2 = true) (hpo : po < 256) (hto : to_ < 2 ^ 32)
    (hb0 : b0 < 256) (hb1 : b1 < 256)
    (h0 : b0 &&& WORK_IN_PROGRESS = 0) (hset : b1 &&& WORK_IN_PROGRESS ≠ 0)
    (ht : t1 + TIMEOUT_MS < t2) :
    writeRes po to_ buf 1 1 (mkM r [b0, b1] [t0, t1, t2]) = some (-ETIMEDOUT) := by
  set s0 := mkM r [b0, b1] [t0, t1, t2] with hs0
  have hmod : to_ % 2 ^ 32 = to_ := Nat.mod_eq_of_lt hto
  obtain ⟨A1, A2, A3, A4, A5, A6, A7⟩ := wc_cs_spec WRITE_ENABLE s0 hr hrc (by decide)
  obtain ⟨m2, hB, B1, B2, B3, B4, B5, B6, B7⟩ :=
    busy_poll_clear TIMEOUT_MS READ_STATUS_REGISTER WORK_IN_PROGRESS 0 0 [b0, b1]
      (cs CS_ENABLE (write_command WRITE_ENABLE s0)) A1 A2 (by decide)
      (by rw [A7, hs0]; rfl) (by rw [A4, hs0]; rfl) (by simpa using hb0) (by simpa using h0)
  have hB1 : busy TIMEOUT_MS READ_STATUS_REGISTER WORK_IN_PROGRESS 1
      (cs CS_ENABLE (write_command WRITE_ENABLE s0)) = some (0, m2) := hB
  obtain ⟨C1, C2, C3, C4, C5, C6, C7⟩ := wc_addr_data_cs_spec po to_ buf m2 B1 B2 hpo
  have hjif : (cs CS_ENABLE (write_data buf (write_address to_ (write_command po m2)))).jif
      = fun i => [t0, t1, t2].getD i 0 := by rw [C6, B6, A6, hs0]; rfl
  have hti : (cs CS_ENABLE (write_data buf (write_address to_ (write_command po m2)))).ti
      = 1 := by rw [C5, B5, A5, hs0]; rfl
  obtain ⟨m4, hD, _, _, _, _, _, _, _⟩ :=
    busy_poll_timeout TIMEOUT_MS READ_STATUS_REGISTER WORK_IN_PROGRESS 0 1 [b0, b1]
      (cs CS_ENABLE (write_data buf (write_address to_ (write_command po m2)))) C1 C2
      (by decide)
      (by rw [C7, B3, A7, hs0]; rfl) (by rw [C4, B4]; try rfl) (by simpa using hb1)
      (by simpa using hset) (by rw [hjif, hti]; simpa using ht)
  have hD1 : busy TIMEOUT_MS READ_STATUS_REGISTER WORK_IN_PROGRESS 1
      (cs CS_ENABLE (write_data buf (write_address to_ (write_command po m2))))
      = some (-ETIMEDOUT, m4) := hD
  have key : spi_flash_nor_write po to_ buf 1 1 s0 = some (-ETIMEDOUT, m4) := by
    rw [spi_flash_nor_write]
    dsimp only
    rw [hmod, hB1]
    dsimp only
    rw [if_neg (by decide : ¬ (((0 : Int) != 0) = true))]
    rw [hD1]
    dsimp only
    rw [if_pos (by decide : (((-ETIMEDOUT : Int)) != 0) = true)]
  rw [writeRes, key]
  rfl

/-! ### Busy-guard scenarios at the initial machine -/

lemma busy_mkM_clear (r t op flag f b0 : Nat) (js : List Nat)
    (hr : r < 256) (hrc : r.testBit 2 = true) (hop : op < 256)
    (hb0 : b0 < 256) (hclear : b0 &&& flag = 0) :
    busyRes t op flag (f + 1) (mkM r [b0] js) = some 0 ∧
    busySent t op flag (f + 1) (mkM r [b0] js) = some (msbBits 8 op) := by
  obtain ⟨m', hF, c1, c2, c3, c4, c5, c6, c7⟩ :=
    busy_poll_clear t op flag f 0 [b0] (mkM r [b0] js) hr hrc hop rfl rfl
      (by simpa using hb0) (by simpa using hclear)
  constructor
  · rw [busyRes, hF]
    rfl
  · rw [busySent, hF]
    show some m'.sent = _
    rw [c7]
    rfl

lemma busy_mkM_timeout (r t op flag f b0 t0 t1 : Nat)
    (hr : r < 256) (hrc : r.testBit 2 = true) (hop : op < 256)
    (hb0 : b0 < 256) (hset : b0 &&& flag ≠ 0) (ht : t0 + t < t1) :
    busyRes t op flag (f + 1) (mkM r [b0] [t0, t1]) = some (-ETIMEDOUT) := by
  obtain ⟨m', hF, _, _, _, _, _, _, _⟩ :=
    busy_poll_timeout t op flag f 0 [b0] (mkM r [b0] [t0, t1]) hr hrc hop rfl rfl
      (by simpa using hb0) (by simpa using hset) (by simpa [mkM] using ht)
  rw [busyRes, hF]
  rfl

lemma busy_mkM_second_clear (r t op flag f b0 b1 t0 t1 : Nat)
    (hr : r < 256) (hrc : r.testBit 2 = true) (hop : op < 256)
    (hb0 : b0 < 256) (hset : b0 &&& flag ≠ 0) (ht : ¬ t0 + t < t1)
    (hb1 : b1 < 256) (hclear : b1 &&& flag = 0) :
    busyRes t op flag (f + 2) (mkM r [b0, b1] [t0, t1]) = some 0 := by
  obtain ⟨m', hF, _, _, _, _, _, _, _⟩ :=
    busy_second_clear t op flag f 0 [b0, b1] (mkM r [b0, b1] [t0, t1]) hr hrc hop rfl rfl
      (by simpa using hb0) (by simpa using hset) (by simpa [mkM] using ht)
      (by simpa using hb1) (by simpa using hclear)
  rw [busyRes, hF]
  rfl

lemma busy_mkM_second_timeout (r t op flag f b0 b1 t0 t1 t2 : Nat)
    (hr : r < 256) (hrc : r.testBit 2 = true) (hop : op < 256)
    (hb0 : b0 < 256) (hset0 : b0 &&& flag ≠ 0) (ht1 : ¬ t0 + t < t1)
    (hb1 : b1 < 256) (hset1 : b1 &&& flag ≠ 0) (ht2 : t0 + t < t2) :
    busyRes t op flag (f + 2) (mkM r [b0, b1] [t0, t1, t2]) = some (-ETIMEDOUT) := by
  obtain ⟨m', hF, _, _⟩ :=
    busy_second_timeout t op flag f 0 [b0, b1] (mkM r [b0, b1] [t0, t1, t2]) hr hrc hop
      rfl rfl (by simpa using hb0) (by simpa using hset0) (by simpa [mkM] using ht1)
      (by simpa using hb1) (by simpa using hset1) (by simpa [mkM] using ht2)
  rw [busyRes, hF]
  rfl

/-! ## Claim theorems -/

/-- C1 counterexample: the claim puts the clock on bit 0 and the
data-line direction on bit 1, but the clock helper (`clk`, driven by
`CLK_ENABLE = 0x02`) sets bit 1 and leaves bit 0 clear, while the
data-out helper (`mosi_set`, mask `0x01`) sets bit 0 and leaves bit 1
clear: starting from register 0, toggling the clock high yields
register 2, not 1. -/
theorem C1_counterexample :
    (clk CLK_ENABLE (mkM 0 [] [])).reg.testBit 1 = true ∧
    (clk CLK_ENABLE (mkM 0 [] [])).reg.testBit 0 = false ∧
    (mosi_set true (mkM 0 [] [])).reg.testBit 0 = true ∧
    (mosi_set true (mkM 0 [] [])).reg.testBit 1 = false := by
  decide

/-- C1 (amended): the control-register bit assignment is: bit 0 drives
the data-out (MOSI) line, bit 1 drives the clock, bit 2 is the
active-low chip-select, and bit 3 enables capture (input-sampling)
mode; every control-line helper (`clk`, `mosi_set`, `cs`, `enable`, at
their call-site argument values) sets or clears exactly the bit at that
index and preserves every other bit. -/
theorem C1_theorem (m : M) (hr : m.reg < 256) (j : Nat) :
    ((mosi_set true m).reg.testBit 0 = true ∧
     (mosi_set false m).reg.testBit 0 = false ∧
     (j ≠ 0 → (mosi_set true m).reg.testBit j = m.reg.testBit j) ∧
     (j ≠ 0 → (mosi_set false m).reg.testBit j = m.reg.testBit j)) ∧
    ((clk CLK_ENABLE m).reg.testBit 1 = true ∧
     (clk (compl8 CLK_ENABLE) m).reg.testBit 1 = false ∧
     (j ≠ 1 → (clk CLK_ENABLE m).reg.testBit j = m.reg.testBit j) ∧
     (j ≠ 1 → (clk (compl8 CLK_ENABLE) m).reg.testBit j = m.reg.testBit j)) ∧
    ((cs CS_ENABLE m).reg.testBit 2 = true ∧
     (cs (compl8 CS_ENABLE) m).reg.testBit 2 = false ∧
     (j ≠ 2 → (cs CS_ENABLE m).reg.testBit j = m.reg.testBit j) ∧
     (j ≠ 2 → (cs (compl8 CS_ENABLE) m).reg.testBit j = m.reg.testBit j)) ∧
    ((enable MISO_MODE m).reg.testBit 3 = true ∧
     (enable (compl8 MISO_MODE) m).reg.testBit 3 = false ∧
     (j ≠ 3 → (enable MISO_MODE m).reg.testBit j = m.reg.testBit j) ∧
     (j ≠ 3 → (enable (compl8 MISO_MODE) m).reg.testBit j = m.reg.testBit j)) := by
  refine ⟨⟨?_, ?_, ?_, ?_⟩, ⟨?_, ?_, ?_, ?_⟩, ⟨?_, ?_, ?_, ?_⟩, ⟨?_, ?_, ?_, ?_⟩⟩
  · rw [mosi_true_eq, wrReg_reg]; exact tb_or_t _ _ _ (by decide)
  · rw [mosi_false_eq, wrReg_reg]; exact tb_and_f _ _ _ (by decide)
  · intro hj; rw [mosi_true_eq, wrReg_reg]; exact frame_or_pow m.reg 0 j hj
  · intro hj; rw [mosi_false_eq, wrReg_reg]
    exact frame_and_mask m.reg 254 0 j hr mask254_bits hj
  · rw [clk_hi_eq, wrReg_reg]; exact tb_or_t _ _ _ (by decide)
  · rw [clk_lo_eq, wrReg_reg]; exact tb_and_f _ _ _ (by decide)
  · intro hj; rw [clk_hi_eq, wrReg_reg]; exact frame_or_pow m.reg 1 j hj
  · intro hj; rw [clk_lo_eq, wrReg_reg]
    exact frame_and_mask m.reg 253 1 j hr mask253_bits hj
  · rw [cs_hi_eq, wrReg_reg]; exact tb_or_t _ _ _ (by decide)
  · rw [cs_lo_eq, wrReg_reg]; exact tb_and_f _ _ _ (by decide)
  · intro hj; rw [cs_hi_eq, wrReg_reg]; exact frame_or_pow m.reg 2 j hj
  · intro hj; rw [cs_lo_eq, wrReg_reg]
    exact frame_and_mask m.reg 251 2 j hr mask251_bits hj
  · rw [enable_hi_eq, wrReg_reg]; exact tb_or_t _ _ _ (by decide)
  · rw [enable_lo_eq, wrReg_reg]; exact tb_and_f _ _ _ (by decide)
  · intro hj; rw [enable_hi_eq, wrReg_reg]; exact frame_or_pow m.reg 3 j hj
  · intro hj; rw [enable_lo_eq, wrReg_reg]
    exact frame_and_mask m.reg 247 3 j hr mask247_bits hj

/-- C1 witness: the amended claim at register value 5 and bit index 4:
the clock helper sets bit 1 and preserves bit 4. -/
theorem C1_witness :
    (clk CLK_ENABLE (mkM 5 [] [])).reg.testBit 1 = true ∧
    (clk CLK_ENABLE (mkM 5 [] [])).reg.testBit 4 = (mkM 5 [] []).reg.testBit 4 :=
  ⟨(C1_theorem (mkM 5 [] []) (by decide) 4).2.1.1,
   (C1_theorem (mkM 5 [] []) (by decide) 4).2.1.2.2.1 (by decide)⟩

/-- C6: every mutation of the control register (clock toggle,
chip-select toggle, data-out set, capture-mode set, at their call-site
argument values) is a read-modify-write that writes back a full byte
(the result stays below 256) and leaves every bit other than the
targeted one unchanged, for every starting register value. -/
theorem C6_theorem (m : M) (hr : m.reg < 256) (j : Nat) :
    ((clk CLK_ENABLE m).reg < 256 ∧ (clk (compl8 CLK_ENABLE) m).reg < 256 ∧
     (mosi_set true m).reg < 256 ∧ (mosi_set false m).reg < 256 ∧
     (cs CS_ENABLE m).reg < 256 ∧ (cs (compl8 CS_ENABLE) m).reg < 256 ∧
     (enable MISO_MODE m).reg < 256 ∧ (enable (compl8 MISO_MODE) m).reg < 256) ∧
    (j ≠ 1 → (clk CLK_ENABLE m).reg.testBit j = m.reg.testBit j
      ∧ (clk (compl8 CLK_ENABLE) m).reg.testBit j = m.reg.testBit j) ∧
    (j ≠ 0 → (mosi_set true m).reg.testBit j = m.reg.testBit j
      ∧ (mosi_set false m).reg.testBit j = m.reg.testBit j) ∧
    (j ≠ 2 → (cs CS_ENABLE m).reg.testBit j = m.reg.testBit j
      ∧ (cs (compl8 CS_ENABLE) m).reg.testBit j = m.reg.testBit j) ∧
    (j ≠ 3 → (enable MISO_MODE m).reg.testBit j = m.reg.testBit j
      ∧ (enable (compl8 MISO_MODE) m).reg.testBit j = m.reg.testBit j) := by
  refine ⟨⟨?_, ?_, ?_, ?_, ?_, ?_, ?_, ?_⟩, ?_, ?_, ?_, ?_⟩
  · rw [clk_hi_eq, wrReg_reg]; exact or_lt_256 _ _ hr (by norm_num)
  · rw [clk_lo_eq, wrReg_reg]; exact and_le_lt _ _ _ hr
  · rw [mosi_true_eq, wrReg_reg]; exact or_lt_256 _ _ hr (by norm_num)
  · rw [mosi_false_eq, wrReg_reg]; exact and_le_lt _ _ _ hr
  · rw [cs_hi_eq, wrReg_reg]; exact or_lt_256 _ _ hr (by norm_num)
  · rw [cs_lo_eq, wrReg_reg]; exact and_le_lt _ _ _ hr
  · rw [enable_hi_eq, wrReg_reg]; exact or_lt_256 _ _ hr (by norm_num)
  · rw [enable_lo_eq, wrReg_reg]; exact and_le_lt _ _ _ hr
  · intro hj
    constructor
    · rw [clk_hi_eq, wrReg_reg]; exact frame_or_pow m.reg 1 j hj
    · rw [clk_lo_eq, wrReg_reg]; exact frame_and_mask m.reg 253 1 j hr mask253_bits hj
  · intro hj
    constructor
    · rw [mosi_true_eq, wrReg_reg]; exact frame_or_pow m.reg 0 j hj
    · rw [mosi_false_eq, wrReg_reg]; exact frame_and_mask m.reg 254 0 j hr mask254_bits hj
  · intro hj
    constructor
    · rw [cs_hi_eq, wrReg_reg]; exact frame_or_pow m.reg 2 j hj
    · rw [cs_lo_eq, wrReg_reg]; exact frame_and_mask m.reg 251 2 j hr mask251_bits hj
  · intro hj
    constructor
    · rw [enable_hi_eq, wrReg_reg]; exact frame_or_pow m.reg 3 j hj
    · rw [enable_lo_eq, wrReg_reg]; exact frame_and_mask m.reg 247 3 j hr mask247_bits hj

/-- C6 witness: at register value 0xAB and bit index 0, the
chip-select toggles write back a byte and preserve bit 0. -/
theorem C6_witness :
    (cs CS_ENABLE (mkM 0xAB [] [])).reg < 256 ∧
    (cs CS_ENABLE (mkM 0xAB [] [])).reg.testBit 0 = (mkM 0xAB [] []).reg.testBit 0 :=
  ⟨(C6_theorem (mkM 0xAB [] []) (by decide) 0).1.2.2.2.2.1,
   ((C6_theorem (mkM 0xAB [] []) (by decide) 0).2.2.2.1 (by decide)).1⟩

/-- C4: sending a byte then receiving through a loopback device that
replays the driven bits in order (the bit sampled at the k-th
capture-mode clock pulse equals the bit driven at the k-th output-mode
clock pulse) returns the byte unchanged: `spi_bitbang_send` emits bits
from position 7 down to 0 and `spi_bitbang_read` accumulates sampled
bits into positions 7 down to 0, so the MSB-first orderings compose to
the identity. -/
theorem C4_theorem (b : Nat) (m : M) (hb : b < 256) (h1 : m.reg < 256)
    (h2 : m.reg.testBit 2 = false) (h3 : m.reg.testBit 3 = false) :
    (spi_bitbang_read (enable MISO_MODE
      (loopback m.sent.length (spi_bitbang_send b m)))).1 = b := by
  obtain ⟨s1, s2, s3, s4, s5, s6, _, _⟩ := spi_bitbang_send_spec b m h1 h2 h3
  have hb' : b % 256 = b := Nat.mod_eq_of_lt hb
  rw [hb'] at s4
  have lb_reg : (loopback m.sent.length (spi_bitbang_send b m)).reg
      = (spi_bitbang_send b m).reg := rfl
  have e_reg : (enable MISO_MODE (loopback m.sent.length (spi_bitbang_send b m))).reg
      = (loopback m.sent.length (spi_bitbang_send b m)).reg ||| 8 := by
    rw [enable_hi_spec]
  have e_dev : (enable MISO_MODE (loopback m.sent.length (spi_bitbang_send b m))).dev
      = (loopback m.sent.length (spi_bitbang_send b m)).dev := by
    rw [enable_hi_spec]
  have e_di : (enable MISO_MODE (loopback m.sent.length (spi_bitbang_send b m))).di
      = 0 := by
    rw [enable_hi_spec]
    rfl
  obtain ⟨r1, _, _, _, _, _, _, _, _⟩ :=
    recvLoop_spec 8 0 (enable MISO_MODE (loopback m.sent.length (spi_bitbang_send b m)))
      (by rw [e_reg, lb_reg]; exact or_lt_256 _ _ s1 (by norm_num))
      (by rw [e_reg, lb_reg, tb_or_f _ _ _ (by decide)]; exact s2)
      (by rw [e_reg]; exact tb_or_t _ _ _ (by decide))
  show (recvLoop 8 0 (enable MISO_MODE
      (loopback m.sent.length (spi_bitbang_send b m)))).1 = b
  rw [r1, e_dev, e_di]
  have hcong : recvPure 8 0 (loopback m.sent.length (spi_bitbang_send b m)).dev 0
      = recvPure 8 0 (fun j => (msbBits 8 b).getD j 0) 0 := by
    refine recvPure_congr 8 0 _ _ 0 0 (fun d hd => ?_)
    show (spi_bitbang_send b m).sent.getD (m.sent.length + (0 + d)) 0
        = (msbBits 8 b).getD (0 + d) 0
    rw [s4, Nat.zero_add, getD_append_len]
  rw [hcong, recvPure_msbBits b hb]

/-- C4 witness: byte 0xA5 survives the loopback round trip from a
powered-up machine with the device selected in output mode. -/
theorem C4_witness :
    (spi_bitbang_read (enable MISO_MODE
      (loopback (mkM 0 [] []).sent.length (spi_bitbang_send 0xA5 (mkM 0 [] []))))).1
      = 0xA5 :=
  C4_theorem 0xA5 (mkM 0 [] []) (by decide) (by decide) (by decide) (by decide)

/-- C5: for every 3-byte address, the address-framing step drives
exactly three bytes (24 bits) on the wire, most-significant byte first:
`(a >>> 16) &&& 0xFF`, then `(a >>> 8) &&& 0xFF`, then `a &&& 0xFF`,
and receives nothing. -/
theorem C5_theorem (a : Nat) (m : M) (ha : a < 2 ^ 24) (h1 : m.reg < 256)
    (h2 : m.reg.testBit 2 = false) (h3 : m.reg.testBit 3 = false) :
    (write_address a m).sent
      = m.sent ++ msbBits 8 ((a >>> 16) &&& 0xFF) ++ msbBits 8 ((a >>> 8) &&& 0xFF)
        ++ msbBits 8 (a &&& 0xFF) ∧
    (write_address a m).sent.length = m.sent.length + 3 * 8 ∧
    (write_address a m).di = m.di := by
  obtain ⟨a1, a2, a3, a4, a5, a6, _⟩ := write_address_spec a m h1 h2 h3
  refine ⟨a4, ?_, a5⟩
  rw [a4]
  simp [msbBits_length]

/-- C5 witness: the framing of address 0x123456 from a selected
output-mode machine. -/
theorem C5_witness :
    (write_address 0x123456 (mkM 0 [] [])).sent
      = (mkM 0 [] []).sent ++ msbBits 8 ((0x123456 >>> 16) &&& 0xFF)
        ++ msbBits 8 ((0x123456 >>> 8) &&& 0xFF) ++ msbBits 8 (0x123456 &&& 0xFF) :=
  (C5_theorem 0x123456 (mkM 0 [] []) (by decide) (by decide) (by decide) (by decide)).1

/-- C9: for every address and length, the data-read operation performs
no busy-wait (it never observes the time stream), never returns an
error (its return value is the non-negative `length`), fills a buffer
of exactly the requested length, and returns exactly the requested
length as its success value. -/
theorem C9_theorem (ro a len : Nat) (m : M) :
    (spi_flash_nor_read ro a len m).1 = Int.ofNat len ∧
    0 ≤ (spi_flash_nor_read ro a len m).1 ∧
    (spi_flash_nor_read ro a len m).2.1.length = len ∧
    (spi_flash_nor_read ro a len m).2.2.ti = m.ti := by
  refine ⟨rfl, ?_, ?_, ?_⟩
  · show (0 : Int) ≤ Int.ofNat len
    exact Int.ofNat_nonneg len
  · show (readLoop len (enable MISO_MODE
      (write_address (a % 2 ^ 32) (write_command ro m)))).1.length = len
    exact readLoop_length len _
  · have hq : quiet m (cs CS_ENABLE
        (read_data len (write_address (a % 2 ^ 32) (write_command ro m))).2) :=
      quiet_trans (quiet_write_command ro m)
        (quiet_trans (quiet_write_address _ _)
          (quiet_trans (quiet_read_data _ _) (quiet_cs _ _)))
    exact hq.1

/-- C10: before asserting chip-select for the opcode phase,
`write_command` (the opcode phase of every transaction shape) first
switches the data line to output mode and drives exactly
`DUMMY_CYCLES = 8` dummy clock pulses (low then high) while the device
is still deselected — every control-register write of that phase keeps
bit 2 high and bit 3 low and the phase contains exactly 8 rising clock
edges; only after those pulses is chip-select asserted (the next write
clears bit 2) and the opcode byte driven onto the wire. -/
theorem C10_theorem (c : Nat) (m : M) (h1 : m.reg < 256)
    (h2 : m.reg.testBit 2 = true) (hc : c < 256) :
    ∃ rest,
      (write_command c m).trace
        = m.trace ++ ((m.reg &&& 247) :: dTrace DUMMY_CYCLES (m.reg &&& 247)) ++ rest ∧
      risingCount m.reg ((m.reg &&& 247) :: dTrace DUMMY_CYCLES (m.reg &&& 247))
        = DUMMY_CYCLES ∧
      (∀ v ∈ (m.reg &&& 247) :: dTrace DUMMY_CYCLES (m.reg &&& 247),
        v.testBit 2 = true ∧ v.testBit 3 = false) ∧
      (∃ w rest2, rest = (w &&& 251) :: rest2 ∧ (w &&& 251).testBit 2 = false) ∧
      (write_command c m).sent = m.sent ++ msbBits 8 c ∧
      (write_command c m).reg.testBit 2 = false := by
  have hc' : c % 256 = c := Nat.mod_eq_of_lt hc
  have e_reg : (enable (compl8 MISO_MODE) m).reg = m.reg &&& 247 := by rw [enable_lo_spec]
  have e_tr : (enable (compl8 MISO_MODE) m).trace = m.trace ++ [m.reg &&& 247] := by
    rw [enable_lo_spec]
  obtain ⟨d1, d2, d3, d4, d5, d6, d7, d8, d9, d10⟩ :=
    dummy_cycles_spec DUMMY_CYCLES (enable (compl8 MISO_MODE) m)
      (by rw [e_reg]; exact and_le_lt _ _ _ h1)
      (by rw [e_reg, tb_and_t _ _ _ (by decide)]; exact h2)
  have c_tr : (cs (compl8 CS_ENABLE) (dummy_cycles DUMMY_CYCLES (enable (compl8 MISO_MODE) m))).trace
      = (dummy_cycles DUMMY_CYCLES (enable (compl8 MISO_MODE) m)).trace
        ++ [(dummy_cycles DUMMY_CYCLES (enable (compl8 MISO_MODE) m)).reg &&& 251] := by
    rw [cs_lo_spec]
  have c_reg : (cs (compl8 CS_ENABLE) (dummy_cycles DUMMY_CYCLES (enable (compl8 MISO_MODE) m))).reg
      = (dummy_cycles DUMMY_CYCLES (enable (compl8 MISO_MODE) m)).reg &&& 251 := by
    rw [cs_lo_spec]
  obtain ⟨s1, s2, s3, s4, s5, s6, s7, s8, s9, tr, s10⟩ :=
    sendLoop_spec 8 c (cs (compl8 CS_ENABLE) (dummy_cycles DUMMY_CYCLES (enable (compl8 MISO_MODE) m)))
      (by rw [c_reg]; exact and_le_lt _ _ _ d1)
      (by rw [c_reg]; exact tb_and_f _ _ _ (by decide))
      (by rw [c_reg, tb_and_t _ _ _ (by decide), d3, e_reg]; exact tb_and_f _ _ _ (by decide))
  obtain ⟨w1, w2, w3, w4, w5, w6, _⟩ := write_command_spec c m h1 h2 hc
  refine ⟨((dummy_cycles DUMMY_CYCLES (enable (compl8 MISO_MODE) m)).reg &&& 251) :: tr,
    ?_, ?_, ?_, ?_, w4, write_command_selected c m⟩
  · have hwc : (write_command c m).trace
        = (sendLoop 8 c (cs (compl8 CS_ENABLE)
            (dummy_cycles DUMMY_CYCLES (enable (compl8 MISO_MODE) m)))).trace := by
      rw [write_command, spi_bitbang_send, hc']
    rw [hwc, s10, c_tr, d10, e_tr, e_reg]
    simp
  · show (if !m.reg.testBit 1 && (m.reg &&& 247).testBit 1 then 1 else 0)
        + risingCount (m.reg &&& 247) (dTrace DUMMY_CYCLES (m.reg &&& 247)) = DUMMY_CYCLES
    rw [tb_and_t _ _ _ (by decide), Bool.not_and_self, dTrace_rising]
    rfl
  · intro v hv
    simp only [List.mem_cons] at hv
    rcases hv with hv | hv
    · subst hv
      exact ⟨by rw [tb_and_t _ _ _ (by decide)]; exact h2, tb_and_f _ _ _ (by decide)⟩
    · obtain ⟨hm2, hm3⟩ := dTrace_mem DUMMY_CYCLES (m.reg &&& 247) v hv
      refine ⟨?_, ?_⟩
      · rw [hm2, tb_and_t _ _ _ (by decide)]; exact h2
      · rw [hm3]; exact tb_and_f _ _ _ (by decide)
  · exact ⟨(dummy_cycles DUMMY_CYCLES (enable (compl8 MISO_MODE) m)).reg, tr, rfl,
      tb_and_f _ _ _ (by decide)⟩

/-- C10 witness: the dummy-cycle phase of a 0x9F opcode transaction
from a deselected machine with register value 4. -/
theorem C10_witness :
    ∃ rest,
      (write_command 0x9F (mkM 4 [] [])).trace
        = (mkM 4 [] []).trace
          ++ (((mkM 4 [] []).reg &&& 247)
            :: dTrace DUMMY_CYCLES ((mkM 4 [] []).reg &&& 247)) ++ rest ∧
      risingCount (mkM 4 [] []).reg
        (((mkM 4 [] []).reg &&& 247) :: dTrace DUMMY_CYCLES ((mkM 4 [] []).reg &&& 247))
        = DUMMY_CYCLES ∧
      (∀ v ∈ ((mkM 4 [] []).reg &&& 247)
          :: dTrace DUMMY_CYCLES ((mkM 4 [] []).reg &&& 247),
        v.testBit 2 = true ∧ v.testBit 3 = false) ∧
      (∃ w rest2, rest = (w &&& 251) :: rest2 ∧ (w &&& 251).testBit 2 = false) ∧
      (write_command 0x9F (mkM 4 [] [])).sent = (mkM 4 [] []).sent ++ msbBits 8 0x9F ∧
      (write_command 0x9F (mkM 4 [] [])).reg.testBit 2 = false :=
  C10_theorem 0x9F (mkM 4 [] []) (by decide) (by decide) (by decide)

/-- C2: the erase engine sends WRITE-ENABLE, busy-waits on the
work-in-progress flag with the 50 ms deadline, sends the erase opcode
and the 3-byte address, then busy-waits on the erase-busy flag and on
the work-in-progress flag, each with the 3000 ms deadline; it returns
`-ETIMEDOUT` if any of the three busy-waits exceeds its deadline, and
otherwise returns the raw `ERASE_ERR` flag value of the final
flag-status read, untranslated.  Conjuncts: (1) the happy path returns
`b3 &&& ERASE_ERR` and the wire carries exactly the WRITE-ENABLE
opcode, a status poll, the erase opcode, the three address bytes
most-significant first, and the three closing status polls; (2) the
first wait times out exactly when the poll-time exceeds entry + 50;
(3) at the 50 ms boundary it does not time out and the erase completes;
(4) and (5) the second and third waits time out when their poll-times
exceed entry + 3000. -/
theorem C2_theorem (r eo offs b0 b1 b2 b3 b4 t0 t1 t2 t3 f2 f3 : Nat)
    (hr : r < 256) (hrc : r.testBit 2 = true) (heo : eo < 256) (hoffs : offs < 2 ^ 32)
    (hb0 : b0 < 256) (hb1 : b1 < 256) (hb2 : b2 < 256) (hb3 : b3 < 256) (hb4 : b4 < 256) :
    (b0 &&& WORK_IN_PROGRESS = 0 → b1 &&& ERASE_BUSY = 0 → b2 &&& WORK_IN_PROGRESS = 0 →
      eraseRes eo offs 1 1 1 (mkM r [b0, b1, b2, b3] [t0])
        = some (Int.ofNat (b3 &&& ERASE_ERR)) ∧
      eraseSent eo offs 1 1 1 (mkM r [b0, b1, b2, b3] [t0])
        = some (msbBits 8 WRITE_ENABLE ++ msbBits 8 READ_STATUS_REGISTER ++ msbBits 8 eo
            ++ msbBits 8 ((offs >>> 16) &&& 0xFF) ++ msbBits 8 ((offs >>> 8) &&& 0xFF)
            ++ msbBits 8 (offs &&& 0xFF)
            ++ msbBits 8 READ_FLAG_STATUS_REGISTER ++ msbBits 8 READ_STATUS_REGISTER
            ++ msbBits 8 READ_FLAG_STATUS_REGISTER)) ∧
    (b0 &&& WORK_IN_PROGRESS ≠ 0 → t0 + TIMEOUT_MS < t1 →
      eraseRes eo offs 1 f2 f3 (mkM r [b0] [t0, t1]) = some (-ETIMEDOUT)) ∧
    (b0 &&& WORK_IN_PROGRESS ≠ 0 → ¬ t0 + TIMEOUT_MS < t1 →
      b1 &&& WORK_IN_PROGRESS = 0 → b2 &&& ERASE_BUSY = 0 → b3 &&& WORK_IN_PROGRESS = 0 →
      eraseRes eo offs 2 1 1 (mkM r [b0, b1, b2, b3, b4] [t0, t1])
        = some (Int.ofNat (b4 &&& ERASE_ERR))) ∧
    (b0 &&& WORK_IN_PROGRESS = 0 → b1 &&& ERASE_BUSY ≠ 0 → t1 + TIMEOUT_ERASE_MS < t2 →
      eraseRes eo offs 1 1 f3 (mkM r [b0, b1] [t0, t1, t2]) = some (-ETIMEDOUT)) ∧
    (b0 &&& WORK_IN_PROGRESS = 0 → b1 &&& ERASE_BUSY = 0 → b2 &&& WORK_IN_PROGRESS ≠ 0 →
      t2 + TIMEOUT_ERASE_MS < t3 →
      eraseRes eo offs 1 1 1 (mkM r [b0, b1, b2] [t0, t1, t2, t3])
        = some (-ETIMEDOUT)) := by
  refine ⟨fun h0 h1 h2 => ?_, fun hset ht => ?_, fun hset ht h1 h2 h3 => ?_,
    fun h0 hset ht => ?_, fun h0 h1 hset ht => ?_⟩
  · exact erase_happy r eo offs b0 b1 b2 b3 [t0] hr hrc heo hoffs hb0 hb1 hb2 hb3 h0 h1 h2
  · exact erase_timeout1 r eo offs b0 t0 t1 f2 f3 hr hrc hb0 hset ht
  · exact erase_wait1_boundary r eo offs b0 b1 b2 b3 b4 t0 t1 hr hrc heo hoffs
      hb0 hb1 hb2 hb3 hb4 hset ht h1 h2 h3
  · exact erase_timeout2 r eo offs b0 b1 t0 t1 t2 f3 hr hrc heo hoffs hb0 hb1 h0 hset ht
  · exact erase_timeout3 r eo offs b0 b1 b2 t0 t1 t2 t3 hr hrc heo hoffs
      hb0 hb1 hb2 h0 h1 hset ht

/-- C2 witness: a concrete erase with all three waits clearing on
their first poll returns the raw erase-error flag value 32. -/
theorem C2_witness :
    eraseRes 0xD8 0x123456 1 1 1 (mkM 4 [0, 0, 0, 0x20] [0])
      = some (Int.ofNat (0x20 &&& ERASE_ERR)) :=
  ((C2_theorem 4 0xD8 0x123456 0 0 0 0x20 0 0 0 0 0 1 1 (by decide) (by decide)
    (by decide) (by decide) (by decide) (by decide) (by decide) (by decide) (by decide)).1
    (by decide) (by decide) (by decide)).1

/-- C3: the data-program operation returns `-ETIMEDOUT` if either of
its two work-in-progress busy-waits (both with the 50 ms deadline)
exceeds its deadline, returns `-EINVAL` (ProgramError) if the
post-write flag-status read has the `PROGRAM_ERR` bit (bit 4) set, and
otherwise returns the length of the input payload.  Conjuncts: (1) the
happy path returns `buf.length` and the wire carries WRITE-ENABLE, a
status poll, the program opcode, the 3-byte address, the payload bytes
in order, and the two closing status polls; (2) a set `PROGRAM_ERR`
bit in the final flag-status byte yields `-EINVAL`; (3) the first wait
times out exactly when the poll-time exceeds entry + 50; (4) at the
50 ms boundary it does not time out and the write completes; (5) the
second wait times out when its poll-time exceeds entry + 50. -/
theorem C3_theorem (r po a b0 b1 b2 b3 t0 t1 t2 f2 : Nat) (buf : List Nat)
    (hr : r < 256) (hrc : r.testBit 2 = true) (hpo : po < 256) (ha : a < 2 ^ 32)
    (hb0 : b0 < 256) (hb1 : b1 < 256) (hb2 : b2 < 256) (hb3 : b3 < 256) :
    (b0 &&& WORK_IN_PROGRESS = 0 → b1 &&& WORK_IN_PROGRESS = 0 → b2 &&& PROGRAM_ERR = 0 →
      writeRes po a buf 1 1 (mkM r [b0, b1, b2] [t0]) = some (Int.ofNat buf.length) ∧
      writeSent po a buf 1 1 (mkM r [b0, b1, b2] [t0])
        = some (msbBits 8 WRITE_ENABLE ++ msbBits 8 READ_STATUS_REGISTER ++ msbBits 8 po
            ++ msbBits 8 ((a >>> 16) &&& 0xFF) ++ msbBits 8 ((a >>> 8) &&& 0xFF)
            ++ msbBits 8 (a &&& 0xFF) ++ msbList buf
            ++ msbBits 8 READ_STATUS_REGISTER ++ msbBits 8 READ_FLAG_STATUS_REGISTER)) ∧
    (b0 &&& WORK_IN_PROGRESS = 0 → b1 &&& WORK_IN_PROGRESS = 0 → b2 &&& PROGRAM_ERR ≠ 0 →
      writeRes po a buf 1 1 (mkM r [b0, b1, b2] [t0]) = some (-EINVAL)) ∧
    (b0 &&& WORK_IN_PROGRESS ≠ 0 → t0 + TIMEOUT_MS < t1 →
      writeRes po a buf 1 f2 (mkM r [b0] [t0, t1]) = some (-ETIMEDOUT)) ∧
    (b0 &&& WORK_IN_PROGRESS ≠ 0 → ¬ t0 + TIMEOUT_MS < t1 →
      b1 &&& WORK_IN_PROGRESS = 0 → b2 &&& WORK_IN_PROGRESS = 0 → b3 &&& PROGRAM_ERR = 0 →
      writeRes po a buf 2 1 (mkM r [b0, b1, b2, b3] [t0, t1])
        = some (Int.ofNat buf.length)) ∧
    (b0 &&& WORK_IN_PROGRESS = 0 → b1 &&& WORK_IN_PROGRESS ≠ 0 → t1 + TIMEOUT_MS < t2 →
      writeRes po a buf 1 1 (mkM r [b0, b1] [t0, t1, t2]) = some (-ETIMEDOUT)) := by
  refine ⟨fun h0 h1 h2 => ?_, fun h0 h1 h2 => ?_, fun hset ht => ?_,
    fun hset ht h1 h2 h3 => ?_, fun h0 hset ht => ?_⟩
  · exact write_happy r po a b0 b1 b2 buf [t0] hr hrc hpo ha hb0 hb1 hb2 h0 h1 h2
  · exact write_progerr r po a b0 b1 b2 buf [t0] hr hrc hpo ha hb0 hb1 hb2 h0 h1 h2
  · exact write_timeout1 r po a b0 t0 t1 f2 buf hr hrc hb0 hset ht
  · exact write_wait1_boundary r po a b0 b1 b2 b3 t0 t1 buf hr hrc hpo ha
      hb0 hb1 hb2 hb3 hset ht h1 h2 h3
  · exact write_timeout2 r po a b0 b1 t0 t1 t2 buf hr hrc hpo ha hb0 hb1 h0 hset ht

/-- C3 witness: a concrete two-byte program whose waits clear and whose
flag-status read is clean returns length 2. -/
theorem C3_witness :
    writeRes 0x02 0x10 [0xAA, 0x55] 1 1 (mkM 4 [0, 0, 0] [0])
      = some (Int.ofNat ([0xAA, 0x55] : List Nat).length) :=
  ((C3_theorem 4 0x02 0x10 0 0 0 0 0 0 0 1 [0xAA, 0x55] (by decide) (by decide)
    (by decide) (by decide) (by decide) (by decide) (by decide) (by decide)).1
    (by decide) (by decide) (by decide)).1

/-- C7: chip-select bracketing.  `write_command` (the opcode phase of
every transaction shape) leaves the device selected (bit 2 low), the
address, outbound-data and inbound-data phases preserve the selection,
and every operation of the five-operation facade deselects the device
(bit 2 high) on every return path, timeouts included: the final machine
of `spi_flash_nor_read_reg` and `spi_flash_nor_read` always has bit 2
set, and `spi_flash_nor_erase`, `spi_flash_nor_write` and
`spi_flash_nor_write_reg` can never return with bit 2 clear. -/
theorem C7_theorem (op len ro eo po a offs c f1 f2 f3 : Nat) (buf : List Nat) (m : M) :
    (spi_flash_nor_read_reg op len m).2.2.reg.testBit 2 = true ∧
    (spi_flash_nor_read ro a len m).2.2.reg.testBit 2 = true ∧
    eraseFinalCS eo offs f1 f2 f3 m ≠ some false ∧
    writeFinalCS po a buf f1 f2 m ≠ some false ∧
    writeRegFinalCS op buf f1 f2 m ≠ some false ∧
    (write_command c m).reg.testBit 2 = false ∧
    (write_address a m).reg.testBit 2 = m.reg.testBit 2 ∧
    (write_data buf m).reg.testBit 2 = m.reg.testBit 2 ∧
    (read_data len m).2.reg.testBit 2 = m.reg.testBit 2 := by
  refine ⟨read_reg_final_cs op len m, read_final_cs ro a len m, ?_, ?_, ?_,
    write_command_selected c m, write_address_bit2 a m, write_data_bit2 buf m,
    read_data_bit2 len m⟩
  · intro hc
    rw [eraseFinalCS] at hc
    rcases h : spi_flash_nor_erase eo offs f1 f2 f3 m with _ | p
    · rw [h] at hc
      exact Option.noConfusion hc
    · rw [h] at hc
      have hcs := erase_final_cs eo offs f1 f2 f3 m p.1 p.2 (by rw [h])
      simp [hcs] at hc
  · intro hc
    rw [writeFinalCS] at hc
    rcases h : spi_flash_nor_write po a buf f1 f2 m with _ | p
    · rw [h] at hc
      exact Option.noConfusion hc
    · rw [h] at hc
      have hcs := write_final_cs po a buf f1 f2 m p.1 p.2 (by rw [h])
      simp [hcs] at hc
  · intro hc
    rw [writeRegFinalCS] at hc
    rcases h : spi_flash_nor_write_reg op buf f1 f2 m with _ | p
    · rw [h] at hc
      exact Option.noConfusion hc
    · rw [h] at hc
      have hcs := write_reg_final_cs op buf f1 f2 m p.1 p.2 (by rw [h])
      simp [hcs] at hc

/-- C8: the busy-poll guard computes its absolute deadline once at call
entry as the entry time plus the given deadline, then repeatedly issues
a status-read transaction for the given opcode (each poll drives
exactly that opcode byte on the wire) and tests the given flag mask
against the returned byte.  Conjuncts: (1) it returns 0 when a poll
observes the flag clear, having issued one status read of the given
opcode; (2) it returns `-ETIMEDOUT` when the flag is still set and the
current time has passed the deadline; (3) at the deadline boundary it
keeps polling and returns 0 once the flag clears; (4) the deadline is
absolute: with the flag still set, a second check at a time past
entry + deadline times out even though the deadline was never re-armed. -/
theorem C8_theorem (r t op flag f b0 b1 t0 t1 t2 : Nat) (js : List Nat)
    (hr : r < 256) (hrc : r.testBit 2 = true) (hop : op < 256)
    (hb0 : b0 < 256) (hb1 : b1 < 256) :
    (b0 &&& flag = 0 →
      busyRes t op flag (f + 1) (mkM r [b0] js) = some 0 ∧
      busySent t op flag (f + 1) (mkM r [b0] js) = some (msbBits 8 op)) ∧
    (b0 &&& flag ≠ 0 → t0 + t < t1 →
      busyRes t op flag (f + 1) (mkM r [b0] [t0, t1]) = some (-ETIMEDOUT)) ∧
    (b0 &&& flag ≠ 0 → ¬ t0 + t < t1 → b1 &&& flag = 0 →
      busyRes t op flag (f + 2) (mkM r [b0, b1] [t0, t1]) = some 0) ∧
    (b0 &&& flag ≠ 0 → ¬ t0 + t < t1 → b1 &&& flag ≠ 0 → t0 + t < t2 →
      busyRes t op flag (f + 2) (mkM r [b0, b1] [t0, t1, t2]) = some (-ETIMEDOUT)) := by
  refine ⟨fun hclear => ?_, fun hset ht => ?_, fun hset ht hclear => ?_,
    fun hset0 ht1 hset1 ht2 => ?_⟩
  · exact busy_mkM_clear r t op flag f b0 js hr hrc hop hb0 hclear
  · exact busy_mkM_timeout r t op flag f b0 t0 t1 hr hrc hop hb0 hset ht
  · exact busy_mkM_second_clear r t op flag f b0 b1 t0 t1 hr hrc hop hb0 hset ht hb1 hclear
  · exact busy_mkM_second_timeout r t op flag f b0 b1 t0 t1 t2 hr hrc hop
      hb0 hset0 ht1 hb1 hset1 ht2

/-- C8 witness: with the flag still set at the first poll and the
second time observation past entry + 50, the guard reports timeout. -/
theorem C8_witness :
    busyRes 50 0x05 0x01 1 (mkM 4 [1] [0, 51]) = some (-ETIMEDOUT) :=
  (C8_theorem 4 50 0x05 0x01 0 1 0 0 51 0 [] (by decide) (by decide) (by decide)
    (by decide) (by decide)).2.1 (by decide) (by decide)

end LitexSpiFlash
